import Mathlib

/-!
Verification development for the `gau2grid` C-utility code generator
(`src/gau2grid/c_util_generator.py`).

Layer 1 embeds the generator functions themselves: each Python function is a
sequence of calls on a shared code-generator object `cg`; we model that object
as an explicit `CodeGen` state and each generator as a state transformer that
appends emission events in the order of the source's calls.

Layer 2 gives semantics to the fixed C loop nests those generators emit
(`gg_naive_transpose`, `gg_fast_transpose`, `block_copy`): a routine is mapped
to the ordered list of (address, value) writes it performs on its output
buffer, and `applyWrites` folds such a list over an initial buffer.
-/

namespace Gau2Grid

/-- One emission action performed on the shared code generator object. -/
inductive CEvent : Type where
  | write : String → CEvent
  | blank : CEvent
  | start : String → CEvent
  | close : CEvent
deriving DecidableEq

/-- Modelled from the spec: the Block Emitter (spec §4.1).  The codegen module
holding the `cg` object is not under `src/`; per the spec it keeps an ordered
stack of open block headers and an indentation level (incremented on block
open, decremented on close), and closing an empty stack is an error
(`errored` flag). `events` records the emission actions in order. -/
structure CodeGen : Type where
  events : List CEvent
  blocks : List String
  indent : Nat
  errored : Bool
deriving DecidableEq

/-- `cg.write(line)`: append a single statement line. -/
def CodeGen.write (cg : CodeGen) (s : String) : CodeGen :=
  { cg with events := cg.events ++ [CEvent.write s] }

/-- `cg.blankline()`: append an empty line; never affects block depth. -/
def CodeGen.blankline (cg : CodeGen) : CodeGen :=
  { cg with events := cg.events ++ [CEvent.blank] }

/-- `cg.start_c_block(header)`: open a block, push the header, deepen indent. -/
def CodeGen.start_c_block (cg : CodeGen) (s : String) : CodeGen :=
  { cg with events := cg.events ++ [CEvent.start s],
            blocks := s :: cg.blocks,
            indent := cg.indent + 1 }

/-- `cg.close_c_block()`: close the innermost open block; closing with an
empty stack raises the emitter's unbalanced-block error (sticky flag). -/
def CodeGen.close_c_block (cg : CodeGen) : CodeGen :=
  { cg with events := cg.events ++ [CEvent.close],
            blocks := cg.blocks.tail,
            indent := cg.indent - 1,
            errored := cg.errored || cg.blocks.isEmpty }

/-- A fresh emitter with nothing emitted and no open blocks. -/
def emptyCG : CodeGen :=
  { events := [], blocks := [], indent := 0, errored := false }

/-- `for cart in deriv_indices: cg.write(f(cart))` — a per-tag write loop. -/
def writeEach (cg : CodeGen) (tags : List String) (f : String → String) : CodeGen :=
  tags.foldl (fun cg c => cg.write (f c)) cg

/-- `for cart in deriv_indices: cg.start_c_block(hdr(cart)); cg.write(msg(cart));
cg.close_c_block()` — a per-tag validation-check loop. -/
def checkEach (cg : CodeGen) (tags : List String) (hdr msg : String → String) : CodeGen :=
  tags.foldl (fun cg c => ((cg.start_c_block (hdr c)).write (msg c)).close_c_block) cg

/-- The wrapper signature built by `pybind11_func` (source lines 19-27): the
fixed parameter list, then one `py::array_t<double> arr_<tag>_out` per
derivative tag, appended in provider order. -/
def pybindSig (name : String) (deriv_indices : List String) : String :=
  (deriv_indices.foldl (fun s c => s ++ (", py::array_t<double> arr_" ++ c ++ "_out"))
    ("void " ++ name ++ "(int L, py::array_t<double> arr_xyz, py::array_t<double> arr_coeffs,\npy::array_t<double> arr_exponents, py::array_t<double> arr_center, bool spherical,\npy::array_t<double> arr_out")) ++ ")"

/-- The kernel call string built by `pybind11_func` (source lines 105-113):
fixed arguments, then one `out_<tag>.mutable_data(0, 0)` per derivative tag. -/
def ggCall (call_name : String) (deriv_indices : List String) : String :=
  (deriv_indices.foldl (fun s c => s ++ (", out_" ++ c ++ ".mutable_data(0, 0)"))
    (call_name ++ "(L, xyz.shape(1)" ++ ", xyz.data(0, 0), xyz.data(1, 0), xyz.data(2, 0)"
      ++ ", coeffs.shape(0), coeffs.data(0), exponents.data(0)" ++ ", center.data(0)"
      ++ ", spherical" ++ ", out.mutable_data(0, 0)")) ++ ")"

/-- Embedding of `pybind11_func` (source lines 10-117).  The Python function
receives `grad` and calls the external `utility.get_deriv_indices(grad)`
(module not under `src/`); per spec §6 that provider returns an ordered tag
sequence, so the embedding takes the resulting list `deriv_indices` directly. -/
def pybind11_func (cg : CodeGen) (name : String) (deriv_indices : List String)
    (call_name : String) (max_L : Nat) : CodeGen :=
  let cg := cg.start_c_block (pybindSig name deriv_indices)
  let cg := cg.blankline
  let cg := cg.write ("// Grab array pointers")
  let cg := cg.write ("auto xyz = arr_xyz.unchecked<2>()")
  let cg := cg.write ("auto coeffs = arr_coeffs.unchecked<1>()")
  let cg := cg.write ("auto exponents = arr_exponents.unchecked<1>()")
  let cg := cg.write ("auto center = arr_center.unchecked<1>()")
  let cg := cg.write ("auto out = arr_out.mutable_unchecked<2>()")
  let cg := writeEach cg deriv_indices
    (fun c => "auto out_" ++ c ++ " = arr_" ++ c ++ "_out.mutable_unchecked<2>()")
  let cg := cg.blankline
  let cg := cg.write ("// XYZ is of size 3")
  let cg := cg.start_c_block ("if (L > " ++ toString max_L ++ ")")
  let cg := cg.write ("    throw std::invalid_argument(\"Exceeded compiled angular momentum of "
    ++ toString max_L ++ ". Please recompile with a higher angular momentum.\\n\")")
  let cg := cg.close_c_block
  let cg := cg.write ("// XYZ is of size 3")
  let cg := cg.start_c_block ("if (arr_xyz.shape(0) != 3)")
  let cg := cg.write ("    throw std::length_error(\"Length of XYZ array must be (3, n).\\n\")")
  let cg := cg.close_c_block
  let cg := cg.blankline
  let cg := cg.write ("// Coeff matches exponent shape")
  let cg := cg.start_c_block ("if (coeffs.shape(0) != exponents.shape(0))")
  let cg := cg.write ("    throw std::length_error(\"Length of coefficients and exponents must match.\\n\")")
  let cg := cg.close_c_block
  let cg := cg.blankline
  let cg := cg.write ("// Center is of size 3")
  let cg := cg.start_c_block ("if (center.shape(0) != 3)")
  let cg := cg.write ("    throw std::length_error(\"Length of center vector must be 3 (X, Y, Z).\\n\")")
  let cg := cg.close_c_block
  let cg := cg.blankline
  let cg := cg.write ("// Make sure output length matches")
  let cg := cg.write ("size_t nsize")
  let cg := cg.start_c_block ("if (spherical)")
  let cg := cg.write ("    nsize = 2 * L + 1")
  let cg := cg.write ("\x7d else \x7b")
  let cg := cg.write ("    nsize = ((L + 2) * (L + 1)) / 2")
  let cg := cg.close_c_block
  let cg := cg.blankline
  let cg := cg.start_c_block ("if (out.shape(0) != nsize)")
  let cg := cg.write ("    throw std::length_error(\"Size of the output array does not match the angular momentum.\\n\")")
  let cg := cg.close_c_block
  let cg := checkEach cg deriv_indices
    (fun c => "if (out_" ++ c ++ ".shape(0) != nsize)")
    (fun c => "    throw std::length_error(\"Size of the output " ++ c.toUpper
      ++ " array does not match the angular momentum.\\n\")")
  let cg := cg.blankline
  let cg := cg.write ("// Ensure lengths match")
  let cg := cg.start_c_block ("if (out.shape(1) != arr_xyz.shape(1))")
  let cg := cg.write ("    throw std::length_error(\"Size of the output array and XYZ array must be the same.\\n\")")
  let cg := cg.close_c_block
  let cg := checkEach cg deriv_indices
    (fun c => "if (out_" ++ c ++ ".shape(1) != arr_xyz.shape(1))")
    (fun c => "    throw std::length_error(\"Size of the output " ++ c.toUpper
      ++ " array and XYZ array must be the same.\\n\")")
  let cg := cg.blankline
  let cg := cg.write ("// Call the GG helper function")
  let cg := cg.write (ggCall call_name deriv_indices)
  cg.close_c_block

/-- Embedding of `pybind11_transpose` (source lines 120-148). -/
def pybind11_transpose (cg : CodeGen) (func_name wrapper_name : String) : CodeGen :=
  let cg := cg.start_c_block ("void " ++ wrapper_name ++ "(py::array_t<double> arr_input"
    ++ ", py::array_t<double> arr_output)")
  let cg := cg.write ("auto input = arr_input.unchecked<2>()")
  let cg := cg.write ("auto output = arr_output.mutable_unchecked<2>()")
  let cg := cg.write ("size_t n = input.shape(0)")
  let cg := cg.write ("size_t m = input.shape(1)")
  let cg := cg.blankline
  let cg := cg.write ("// Check shapes")
  let cg := cg.start_c_block ("if (input.shape(0) != output.shape(1))")
  let cg := cg.write ("    throw std::length_error(\"Input tranpose shape 0 does not match output transpose shape 1.\\n\")")
  let cg := cg.close_c_block
  let cg := cg.blankline
  let cg := cg.start_c_block ("if (input.shape(1) != output.shape(0))")
  let cg := cg.write ("    throw std::length_error(\"Input tranpose shape 1 does not match output transpose shape 0.\\n\")")
  let cg := cg.close_c_block
  let cg := cg.blankline
  let cg := cg.write (func_name ++ "(n, m, input.data(0, 0), output.mutable_data(0, 0))")
  cg.close_c_block

/-- Embedding of `naive_transpose` (source lines 154-173); returns the emitted
signature like the Python function does. -/
def naive_transpose (cg : CodeGen) : CodeGen × String :=
  let sig := "void gg_naive_transpose(size_t n, size_t m, const double* __restrict__ input, double* __restrict__ output)"
  let cg := cg.start_c_block (sig)
  let cg := cg.start_c_block ("for (size_t i = 0; i < n; i++)")
  let cg := cg.start_c_block ("for (size_t j = 0; j < m; j++)")
  let cg := cg.write ("output[j * n + i] = input[i * m + j]")
  let cg := cg.close_c_block
  let cg := cg.close_c_block
  (cg.close_c_block, sig)

/-- Embedding of `fast_transpose` (source lines 176-276); `inner_block` is the
generation-time tile size and appears embedded in the emitted text. -/
def fast_transpose (cg : CodeGen) (inner_block : Nat) : CodeGen × String :=
  let sig := "void gg_fast_transpose(size_t n, size_t m, const double* __restrict__ input, double* __restrict__ output)"
  let cg := cg.start_c_block (sig)
  let cg := cg.blankline
  let cg := cg.write ("// Temps")
  let cg := cg.write ("double tmp[" ++ toString (inner_block * inner_block)
    ++ "]  __attribute__((aligned(64)))")
  let cg := cg.write ("// Sizing")
  let cg := cg.write ("size_t nblocks = n / " ++ toString inner_block)
  let cg := cg.write ("nblocks += (n % " ++ toString inner_block ++ ") ? 1 : 0")
  let cg := cg.write ("size_t mblocks = m / " ++ toString inner_block)
  let cg := cg.write ("mblocks += (m % " ++ toString inner_block ++ ") ? 1 : 0")
  let cg := cg.write ("// Outer blocks")
  let cg := cg.start_c_block ("for (size_t nb = 0; nb < nblocks; nb++)")
  let cg := cg.write ("const size_t nstart = nb * " ++ toString inner_block)
  let cg := cg.write ("size_t nremain = ((nstart + " ++ toString inner_block
    ++ ") > n) ? (n - nstart) : " ++ toString inner_block)
  let cg := cg.start_c_block ("for (size_t mb = 0; mb < mblocks; mb++)")
  let cg := cg.write ("const size_t mstart = mb * " ++ toString inner_block)
  let cg := cg.write ("size_t mremain = ((mstart + " ++ toString inner_block
    ++ ") > m) ? (m - mstart) : " ++ toString inner_block)
  let cg := cg.write ("// Copy data to inner block")
  let cg := cg.start_c_block ("for (size_t l = 0; l < nremain; l++)")
  let cg := cg.write ("const size_t start = (nstart + l) * m + mstart")
  let cg := cg.start_c_block ("for (size_t k = 0; k < mremain; k++)")
  let cg := cg.write ("tmp[k * " ++ toString inner_block ++ " + l] = input[start + k]")
  let cg := cg.close_c_block
  let cg := cg.close_c_block
  let cg := cg.write ("// Copy data to inner block")
  let cg := cg.start_c_block ("for (size_t k = 0; k < mremain; k++)")
  let cg := cg.write ("const size_t start = (mstart + k) * n + nstart")
  let cg := cg.start_c_block ("for (size_t l = 0; l < nremain; l++)")
  let cg := cg.write ("output[start + l] = tmp[k * " ++ toString inner_block ++ " + l]")
  let cg := cg.close_c_block
  let cg := cg.close_c_block
  let cg := cg.close_c_block
  let cg := cg.close_c_block
  (cg.close_c_block, sig)

/-- Embedding of `block_copy` (source lines 282-309). -/
def block_copy (cg : CodeGen) : CodeGen × String :=
  let sig := "void block_copy(size_t n, size_t m, const double* __restrict__ input, size_t is, double* __restrict__ output, size_t os, const int trans)"
  let cg := cg.start_c_block (sig)
  let cg := cg.blankline
  let cg := cg.start_c_block ("for (size_t i = 0; i < n; i++)")
  let cg := cg.write ("const size_t out_shift = i * os")
  let cg := cg.write ("const size_t inp_shift = i * is")
  let cg := cg.blankline
  let cg := cg.start_c_block ("for (size_t j = 0; j < m; j++)")
  let cg := cg.write ("output[out_shift + j] = input[inp_shift + j]")
  let cg := cg.close_c_block
  let cg := cg.close_c_block
  (cg.close_c_block, sig)

/-! ## Layer 2: semantics of the emitted C routines

A routine's effect on its output buffer is the ordered list of
(address, value) writes performed by the emitted loop nest; `applyWrites`
replays such a list on an initial buffer.  Elements are copied verbatim and
never combined, so the element type is an arbitrary `α`. -/

variable {α : Type}

/-- Pointwise update of a buffer, the meaning of `buf[i] = v`. -/
def updFn (f : Nat → α) (i : Nat) (v : α) : Nat → α :=
  fun j => if j = i then v else f j

/-- Replay an ordered write list over an initial buffer. -/
def applyWrites (ws : List (Nat × α)) (f : Nat → α) : Nat → α :=
  ws.foldl (fun f p => updFn f p.1 p.2) f

/-- Semantics of the loop nest emitted by `naive_transpose` (source lines
162-167): `for i < n: for j < m: output[j * n + i] = input[i * m + j]`,
as the ordered write list of the two loops. -/
def naiveTransposeWrites (n m : Nat) (input : Nat → α) : List (Nat × α) :=
  (List.range n).flatMap (fun i =>
    (List.range m).map (fun j => (j * n + i, input (i * m + j))))

/-- The clamped tile bound emitted by `fast_transpose` (source lines 199, 203):
`remain = ((start + t) > X) ? (X - start) : t`. -/
def remain (t X start : Nat) : Nat :=
  if start + t > X then X - start else t

/-- The block count emitted by `fast_transpose` (source lines 189-193):
`X / t` plus one more block when `X % t` is nonzero. -/
def nBlocks (t X : Nat) : Nat :=
  X / t + (if X % t = 0 then 0 else 1)

/-- The gather-phase writes into the staging buffer `tmp` for one tile
(source lines 217-228): `for l < nremain: start = (nstart + l) * m + mstart;
for k < mremain: tmp[k * t + l] = input[start + k]`. -/
def gatherWrites (t n m nstart mstart : Nat) (input : Nat → α) : List (Nat × α) :=
  (List.range (remain t n nstart)).flatMap (fun l =>
    (List.range (remain t m mstart)).map (fun k =>
      (k * t + l, input ((nstart + l) * m + mstart + k))))

/-- The staging buffer after the gather phase of one tile: the gather writes
replayed over the incoming `tmp` contents. -/
def gatherTile (t n m nstart mstart : Nat) (input : Nat → α) (tmp : Nat → α) : Nat → α :=
  applyWrites (gatherWrites t n m nstart mstart input) tmp

/-- The scatter-phase writes for one tile (source lines 253-261):
`for k < mremain: start = (mstart + k) * n + nstart;
for l < nremain: output[start + l] = tmp[k * t + l]`. -/
def scatterWrites (t n m nstart mstart : Nat) (tmp : Nat → α) : List (Nat × α) :=
  (List.range (remain t m mstart)).flatMap (fun k =>
    (List.range (remain t n nstart)).map (fun l =>
      ((mstart + k) * n + nstart + l, tmp (k * t + l))))

/-- Semantics of the loop nest emitted by `fast_transpose` with tile size `t`
(source lines 186-274): iterate tile rows `nb < nblocks` and tile columns
`mb < mblocks`; per tile, gather into the persistent staging buffer (threaded
as state, initial garbage contents `tmp0`) and scatter it to the output.
Result: the ordered write list performed on `output`. -/
def fastTransposeWrites (t n m : Nat) (input : Nat → α) (tmp0 : Nat → α) : List (Nat × α) :=
  ((List.range (nBlocks t n)).foldl (fun (st : (Nat → α) × List (Nat × α)) nb =>
    (List.range (nBlocks t m)).foldl (fun st mb =>
      let nstart := nb * t
      let mstart := mb * t
      let tmp := gatherTile t n m nstart mstart input st.1
      (tmp, st.2 ++ scatterWrites t n m nstart mstart tmp)) st)
   (tmp0, ([] : List (Nat × α)))).2

/-- Semantics of the loop nest emitted by `block_copy` (source lines 292-305):
`for i < n: out_shift = i * os; inp_shift = i * is;
for j < m: output[out_shift + j] = input[inp_shift + j]`.  The trailing
`trans` parameter of the emitted signature is accepted but never read by the
emitted body, exactly as in the source. -/
def blockCopyWrites (n m : Nat) (input : Nat → α) (istride ostride : Nat)
    (trans : Int) : List (Nat × α) :=
  (List.range n).flatMap (fun i =>
    (List.range m).map (fun j => (i * ostride + j, input (i * istride + j))))

/-- Semantics of the `nsize` computation emitted by `pybind11_func` (source
lines 72-77): `nsize = 2 * L + 1` if spherical else `((L + 2) * (L + 1)) / 2`. -/
def nsize (L : Nat) (spherical : Bool) : Nat :=
  if spherical then 2 * L + 1 else ((L + 2) * (L + 1)) / 2

/-! ## Write-list infrastructure -/

theorem applyWrites_nil (f : Nat → α) : applyWrites [] f = f := rfl

theorem applyWrites_cons (p : Nat × α) (ws : List (Nat × α)) (f : Nat → α) :
    applyWrites (p :: ws) f = applyWrites ws (updFn f p.1 p.2) := rfl

theorem applyWrites_append (l₁ l₂ : List (Nat × α)) (f : Nat → α) :
    applyWrites (l₁ ++ l₂) f = applyWrites l₂ (applyWrites l₁ f) := by
  unfold applyWrites
  exact List.foldl_append _ _ _ _

/-- A buffer cell not named by any write is untouched. -/
theorem applyWrites_eq_of_not_mem (ws : List (Nat × α)) (f : Nat → α) (a : Nat)
    (h : ∀ p ∈ ws, p.1 ≠ a) : applyWrites ws f a = f a := by
  induction ws generalizing f with
  | nil => rfl
  | cons p ws ih =>
      rw [applyWrites_cons, ih _ (fun q hq => h q (List.mem_cons_of_mem _ hq))]
      have hpa : a ≠ p.1 := fun e => h p (List.mem_cons_self p ws) e.symm
      unfold updFn
      rw [if_neg hpa]

/-- Replaying the same writes over buffers that agree at `a` gives the same
value at `a`. -/
theorem applyWrites_congr_at (ws : List (Nat × α)) (f g : Nat → α) (a : Nat)
    (h : f a = g a) : applyWrites ws f a = applyWrites ws g a := by
  induction ws generalizing f g with
  | nil => exact h
  | cons p ws ih =>
      rw [applyWrites_cons, applyWrites_cons]
      refine ih _ _ ?_
      unfold updFn
      by_cases hap : a = p.1 <;> simp [hap, h]

/-- If exactly one index `j0` of a mapped write loop targets address `a`,
the final value at `a` is that write's value. -/
theorem applyWrites_range_map_at (c : Nat) (addr : Nat → Nat) (val : Nat → α)
    (f : Nat → α) (a j0 : Nat) (hj0 : j0 < c) (ha : addr j0 = a)
    (hother : ∀ j, j < c → j ≠ j0 → addr j ≠ a) :
    applyWrites ((List.range c).map (fun j => (addr j, val j))) f a = val j0 := by
  induction c generalizing f with
  | zero => omega
  | succ c ih =>
      rw [List.range_succ, List.map_append, applyWrites_append]
      by_cases hj : j0 = c
      · subst hj
        have : applyWrites [(addr j0, val j0)] (applyWrites ((List.range j0).map
            (fun j => (addr j, val j))) f) a = val j0 := by
          rw [applyWrites_cons, applyWrites_nil]
          unfold updFn
          rw [if_pos ha.symm]
        simpa using this
      · have hlt : j0 < c := by omega
        have hmiss : addr c ≠ a := hother c (Nat.lt_succ_self c) (fun e => hj e.symm)
        have hskip : applyWrites [(addr c, val c)] (applyWrites ((List.range c).map
            (fun j => (addr j, val j))) f) a =
            applyWrites ((List.range c).map (fun j => (addr j, val j))) f a := by
          rw [applyWrites_cons, applyWrites_nil]
          unfold updFn
          rw [if_neg (fun e => hmiss e.symm)]
        simp only [List.map_cons, List.map_nil]
        rw [hskip]
        refine ih f hlt ?_
        intro j h1 h2
        exact hother j (Nat.lt_succ_of_lt h1) h2

/-- If only the group `i0` of a grouped (flat-mapped) write loop can target
address `a`, the loop's effect at `a` is the effect of group `i0` alone. -/
theorem applyWrites_range_flatMap_at (c : Nat) (g : Nat → List (Nat × α))
    (f : Nat → α) (a i0 : Nat) (hi0 : i0 < c)
    (hother : ∀ i, i < c → i ≠ i0 → ∀ p ∈ g i, p.1 ≠ a) :
    applyWrites ((List.range c).flatMap g) f a = applyWrites (g i0) f a := by
  induction c generalizing f with
  | zero => omega
  | succ c ih =>
      rw [List.range_succ, List.flatMap_append, applyWrites_append]
      by_cases hi : i0 = c
      · subst hi
        have hpre : applyWrites ((List.range i0).flatMap g) f a = f a := by
          apply applyWrites_eq_of_not_mem
          intro p hp
          obtain ⟨i, hi_mem, hpi⟩ := List.mem_flatMap.mp hp
          have hilt : i < i0 := List.mem_range.mp hi_mem
          exact hother i (by omega) (by omega) p hpi
        simp only [List.flatMap_cons, List.flatMap_nil, List.append_nil]
        exact applyWrites_congr_at _ _ _ _ hpre
      · have hlt : i0 < c := by omega
        have hmiss : ∀ p ∈ g c, p.1 ≠ a :=
          hother c (Nat.lt_succ_self c) (fun e => hi e.symm)
        simp only [List.flatMap_cons, List.flatMap_nil, List.append_nil]
        rw [applyWrites_eq_of_not_mem _ _ _ hmiss]
        refine ih f hlt ?_
        intro i h1 h2
        exact hother i (Nat.lt_succ_of_lt h1) h2

/-! ## Facts about the clamped tile bounds -/

/-- The emitted clamp `((start + t) > X) ? (X - start) : t` is exactly
`min t (X - start)` (with truncated natural subtraction, as in `size_t`). -/
theorem remain_eq_min (t X s : Nat) : remain t X s = min t (X - s) := by
  unfold remain
  split <;> omega

theorem remain_le (t X s : Nat) : remain t X s ≤ t := by
  unfold remain
  split <;> omega

theorem lt_of_lt_remain (t X s k : Nat) (h : k < remain t X s) : s + k < X := by
  unfold remain at h
  split at h <;> omega

/-! ## Characterization of the naive transpose -/

/-- Every write of the naive transpose targets an address below `n * m`,
and writes exist only when both dimensions are positive. -/
theorem naive_writes_lt (n m : Nat) (input : Nat → α) (p : Nat × α)
    (hp : p ∈ naiveTransposeWrites n m input) : p.1 < n * m ∧ 0 < n := by
  unfold naiveTransposeWrites at hp
  obtain ⟨i, hi_mem, hpi⟩ := List.mem_flatMap.mp hp
  obtain ⟨j, hj_mem, hpj⟩ := List.mem_map.mp hpi
  have hi : i < n := List.mem_range.mp hi_mem
  have hj : j < m := List.mem_range.mp hj_mem
  constructor
  · rw [← hpj]
    show j * n + i < n * m
    calc j * n + i < j * n + n := by omega
      _ = (j + 1) * n := by ring
      _ ≤ m * n := Nat.mul_le_mul_right n (by omega)
      _ = n * m := Nat.mul_comm m n
  · omega

/-- Final buffer of the naive transpose at any address: addresses inside
`[0, n*m)` hold the transposed element, all others are untouched. -/
theorem naive_applyWrites_at (n m : Nat) (input f : Nat → α) (a : Nat) :
    applyWrites (naiveTransposeWrites n m input) f a =
      if 0 < n ∧ a < n * m then input ((a % n) * m + a / n) else f a := by
  by_cases h : 0 < n ∧ a < n * m
  · rw [if_pos h]
    obtain ⟨hn, ham⟩ := h
    have hi0 : a % n < n := Nat.mod_lt a hn
    have hamn : a < m * n := by rw [Nat.mul_comm]; exact ham
    have hj0 : a / n < m := (Nat.div_lt_iff_lt_mul hn).mpr hamn
    have hsplit : a / n * n + a % n = a := by
      rw [Nat.mul_comm]
      exact Nat.div_add_mod a n
    unfold naiveTransposeWrites
    have hrow : applyWrites ((List.range n).flatMap (fun i => (List.range m).map
        (fun j => (j * n + i, input (i * m + j))))) f a =
        applyWrites ((List.range m).map
          (fun j => (j * n + a % n, input (a % n * m + j)))) f a := by
      apply applyWrites_range_flatMap_at n _ f a (a % n) hi0
      intro i hilt hii p hpmem hpa
      obtain ⟨j, hj_mem, hpj⟩ := List.mem_map.mp hpmem
      have hp1 : p.1 = j * n + i := by rw [← hpj]
      have hmod : (j * n + i) % n = i := by
        rw [Nat.add_comm, Nat.add_mul_mod_self_right]
        exact Nat.mod_eq_of_lt hilt
      apply hii
      rw [hp1] at hpa
      rw [← hpa, hmod]
    rw [hrow]
    have := applyWrites_range_map_at m (fun j => j * n + a % n)
      (fun j => input (a % n * m + j)) f a (a / n) hj0 hsplit ?hother
    case hother =>
      intro j hjm hne he
      have he' : j * n + a % n = a := he
      have hjn : j * n = a / n * n := by omega
      exact hne (Nat.eq_of_mul_eq_mul_right hn hjn)
    exact this
  · rw [if_neg h]
    apply applyWrites_eq_of_not_mem
    intro p hp hpa
    have := naive_writes_lt n m input p hp
    omega

/-- Degenerate dimensions emit no writes at all. -/
theorem naiveTransposeWrites_nil (n m : Nat) (input : Nat → α)
    (h : n = 0 ∨ m = 0) : naiveTransposeWrites n m input = [] := by
  unfold naiveTransposeWrites
  rcases h with h | h <;> subst h <;> simp

/-! ## Characterization of the blocked (fast) transpose -/

/-- In-bounds row/column pairs give addresses inside the `n * m` output. -/
theorem addr_lt (n m ii jj : Nat) (hii : ii < n) (hjj : jj < m) :
    jj * n + ii < n * m := by
  calc jj * n + ii < jj * n + n := by omega
    _ = (jj + 1) * n := by ring
    _ ≤ m * n := Nat.mul_le_mul_right n (by omega)
    _ = n * m := Nat.mul_comm m n

/-- Unique base-`t` digit decomposition: `nb * t + l` splits back into `nb`
and `l` when `l < t`. -/
theorem decomp_unique (t nb l : Nat) (hl : l < t) :
    (nb * t + l) % t = l ∧ (nb * t + l) / t = nb := by
  have ht : 0 < t := by omega
  constructor
  · rw [Nat.add_comm, Nat.add_mul_mod_self_right]
    exact Nat.mod_eq_of_lt hl
  · rw [Nat.add_comm, Nat.add_mul_div_right _ _ ht]
    rw [Nat.div_eq_of_lt hl]
    omega

/-- After the gather phase of a tile, the staging buffer holds the sub-block
pre-transposed: `tmp[k * t + l] = input[(nstart + l) * m + mstart + k]`. -/
theorem gatherTile_at (t n m nstart mstart : Nat) (input tmp : Nat → α) (k l : Nat)
    (hk : k < remain t m mstart) (hl : l < remain t n nstart) :
    gatherTile t n m nstart mstart input tmp (k * t + l) =
      input ((nstart + l) * m + mstart + k) := by
  have hlt : l < t := lt_of_lt_of_le hl (remain_le t n nstart)
  have hkt : k < t := lt_of_lt_of_le hk (remain_le t m mstart)
  unfold gatherTile gatherWrites
  have hrow : applyWrites ((List.range (remain t n nstart)).flatMap (fun l' =>
      (List.range (remain t m mstart)).map (fun k' =>
        (k' * t + l', input ((nstart + l') * m + mstart + k'))))) tmp (k * t + l) =
      applyWrites ((List.range (remain t m mstart)).map (fun k' =>
        (k' * t + l, input ((nstart + l) * m + mstart + k')))) tmp (k * t + l) := by
    apply applyWrites_range_flatMap_at _ _ tmp (k * t + l) l hl
    intro l' hl'lt hne p hpmem hpa
    obtain ⟨k', hk'_mem, hpk⟩ := List.mem_map.mp hpmem
    have hp1 : p.1 = k' * t + l' := by rw [← hpk]
    have hl't : l' < t := lt_of_lt_of_le hl'lt (remain_le t n nstart)
    apply hne
    have heq : k' * t + l' = k * t + l := by rw [← hp1, hpa]
    have h1 := (decomp_unique t k' l' hl't).1
    have h2 := (decomp_unique t k l hlt).1
    rw [heq] at h1
    omega
  rw [hrow]
  have := applyWrites_range_map_at (remain t m mstart) (fun k' => k' * t + l)
    (fun k' => input ((nstart + l) * m + mstart + k')) tmp (k * t + l) k hk rfl ?hoth
  case hoth =>
    intro k' hk'lt hne he
    have he' : k' * t + l = k * t + l := he
    have ht0 : 0 < t := by omega
    have : k' * t = k * t := by omega
    exact hne (Nat.eq_of_mul_eq_mul_right ht0 this)
  exact this

/-- Map congruence restricted to members (helper). -/
theorem mapCongrMem {β γ : Type} (l : List β) (f g : β → γ)
    (h : ∀ b ∈ l, f b = g b) : l.map f = l.map g := by
  induction l with
  | nil => rfl
  | cons b l ih =>
      simp only [List.map_cons]
      rw [h b (List.mem_cons_self b l), ih (fun x hx => h x (List.mem_cons_of_mem _ hx))]

/-- Flat-map congruence restricted to members (helper). -/
theorem flatMapCongrMem {β γ : Type} (l : List β) (f g : β → List γ)
    (h : ∀ b ∈ l, f b = g b) : l.flatMap f = l.flatMap g := by
  induction l with
  | nil => rfl
  | cons b l ih =>
      simp only [List.flatMap_cons]
      rw [h b (List.mem_cons_self b l), ih (fun x hx => h x (List.mem_cons_of_mem _ hx))]

/-- Closed form of one tile's scatter writes: every scattered value is the
input element gathered for that slot, so the tile contributes the writes
`output[(mstart+k)*n + nstart+l] = input[(nstart+l)*m + mstart+k]`
(derived below from `gatherTile_at`; not itself a source translation). -/
def tileWrites (t n m nstart mstart : Nat) (input : Nat → α) : List (Nat × α) :=
  (List.range (remain t m mstart)).flatMap (fun k =>
    (List.range (remain t n nstart)).map (fun l =>
      ((mstart + k) * n + nstart + l, input ((nstart + l) * m + mstart + k))))

/-- The scatter writes of a tile whose staging buffer was just gathered do not
depend on the staging buffer's previous contents: they equal `tileWrites`. -/
theorem scatter_gather (t n m nstart mstart : Nat) (input tmpIn : Nat → α) :
    scatterWrites t n m nstart mstart (gatherTile t n m nstart mstart input tmpIn) =
      tileWrites t n m nstart mstart input := by
  unfold scatterWrites tileWrites
  apply flatMapCongrMem
  intro k hk_mem
  have hk : k < remain t m mstart := List.mem_range.mp hk_mem
  apply mapCongrMem
  intro l hl_mem
  have hl : l < remain t n nstart := List.mem_range.mp hl_mem
  rw [gatherTile_at t n m nstart mstart input tmpIn k l hk hl]

/-- Unrolling the inner (tile-column) fold of `fastTransposeWrites`. -/
theorem fast_inner_fold (t n m : Nat) (input : Nat → α) (nb : Nat)
    (L : List Nat) (st : (Nat → α) × List (Nat × α)) :
    (L.foldl (fun st mb =>
      let nstart := nb * t
      let mstart := mb * t
      let tmp := gatherTile t n m nstart mstart input st.1
      (tmp, st.2 ++ scatterWrites t n m nstart mstart tmp)) st).2 =
    st.2 ++ L.flatMap (fun mb => tileWrites t n m (nb * t) (mb * t) input) := by
  induction L generalizing st with
  | nil => simp
  | cons mb L ih =>
      rw [List.foldl_cons, ih]
      show (st.2 ++ scatterWrites t n m (nb * t) (mb * t)
          (gatherTile t n m (nb * t) (mb * t) input st.1))
        ++ L.flatMap (fun mb => tileWrites t n m (nb * t) (mb * t) input) = _
      rw [scatter_gather, List.flatMap_cons, List.append_assoc]

/-- Unrolling the outer (tile-row) fold of `fastTransposeWrites`. -/
theorem fast_outer_fold (t n m : Nat) (input : Nat → α)
    (L : List Nat) (st : (Nat → α) × List (Nat × α)) :
    (L.foldl (fun st nb =>
      (List.range (nBlocks t m)).foldl (fun st mb =>
        let nstart := nb * t
        let mstart := mb * t
        let tmp := gatherTile t n m nstart mstart input st.1
        (tmp, st.2 ++ scatterWrites t n m nstart mstart tmp)) st) st).2 =
    st.2 ++ L.flatMap (fun nb => (List.range (nBlocks t m)).flatMap
      (fun mb => tileWrites t n m (nb * t) (mb * t) input)) := by
  induction L generalizing st with
  | nil => simp
  | cons nb L ih =>
      rw [List.foldl_cons, ih, fast_inner_fold, List.flatMap_cons, List.append_assoc]

/-- The write list of the blocked transpose is the concatenation of the tile
write lists, in tile order; the threaded staging buffer drops out. -/
theorem fastTransposeWrites_eq (t n m : Nat) (input tmp0 : Nat → α) :
    fastTransposeWrites t n m input tmp0 =
      (List.range (nBlocks t n)).flatMap (fun nb =>
        (List.range (nBlocks t m)).flatMap (fun mb =>
          tileWrites t n m (nb * t) (mb * t) input)) := by
  unfold fastTransposeWrites
  rw [fast_outer_fold]
  simp

/-- Structure of any member of a tile's write list. -/
theorem tileWrites_mem (t n m nstart mstart : Nat) (input : Nat → α) (p : Nat × α)
    (hp : p ∈ tileWrites t n m nstart mstart input) :
    ∃ k l, k < remain t m mstart ∧ l < remain t n nstart ∧
      p = ((mstart + k) * n + nstart + l, input ((nstart + l) * m + mstart + k)) := by
  unfold tileWrites at hp
  obtain ⟨k, hk_mem, hpk⟩ := List.mem_flatMap.mp hp
  obtain ⟨l, hl_mem, hpl⟩ := List.mem_map.mp hpk
  exact ⟨k, l, List.mem_range.mp hk_mem, List.mem_range.mp hl_mem, hpl.symm⟩

/-- A tile write that hits address `a` determines the tile indices: they are
the base-`t` digits of `a`'s row/column decomposition. -/
theorem tile_hit (t n m nb mb : Nat) (hn : 0 < n) (input : Nat → α)
    (p : Nat × α) (hp : p ∈ tileWrites t n m (nb * t) (mb * t) input) (a : Nat)
    (hpa : p.1 = a) :
    nb = a % n / t ∧ mb = a / n / t ∧ a % n < n ∧ a / n < m ∧ a < n * m := by
  obtain ⟨k, l, hk, hl, hpe⟩ := tileWrites_mem t n m (nb * t) (mb * t) input p hp
  have hii : nb * t + l < n := lt_of_lt_remain t n (nb * t) l hl
  have hjj : mb * t + k < m := lt_of_lt_remain t m (mb * t) k hk
  have hlt : l < t := lt_of_lt_of_le hl (remain_le t n (nb * t))
  have hkt : k < t := lt_of_lt_of_le hk (remain_le t m (mb * t))
  have haddr : (mb * t + k) * n + (nb * t + l) = a := by
    rw [← hpa, hpe]
    ring
  have hd := decomp_unique n (mb * t + k) (nb * t + l) hii
  have hmod : a % n = nb * t + l := by rw [← haddr]; exact hd.1
  have hdiv : a / n = mb * t + k := by rw [← haddr]; exact hd.2
  constructor
  · rw [hmod]
    exact ((decomp_unique t nb l hlt).2).symm
  refine ⟨?_, ?_, ?_, ?_⟩
  · rw [hdiv]
    exact ((decomp_unique t mb k hkt).2).symm
  · rw [hmod]; exact hii
  · rw [hdiv]; exact hjj
  · rw [← haddr]
    exact addr_lt n m (nb * t + l) (mb * t + k) hii hjj

/-- One tile-row index per row: `i / t` lies below the emitted block count. -/
theorem div_lt_nBlocks (t X i : Nat) (ht : 1 ≤ t) (hi : i < X) :
    i / t < nBlocks t X := by
  unfold nBlocks
  by_cases hX : X % t = 0
  · rw [if_pos hX]
    have hdvd : X / t * t = X := Nat.div_mul_cancel (Nat.dvd_of_mod_eq_zero hX)
    have : i / t < X / t := by
      rw [Nat.div_lt_iff_lt_mul (by omega : 0 < t)]
      omega
    omega
  · rw [if_neg hX]
    have h1 : i / t ≤ X / t := Nat.div_le_div_right (le_of_lt hi)
    omega

/-- The in-tile offset of a covered row lies below that tile's clamped bound. -/
theorem mod_lt_remain (t X i : Nat) (ht : 1 ≤ t) (hi : i < X) :
    i % t < remain t X (i / t * t) := by
  have h1 : i / t * t ≤ i := Nat.div_mul_le_self i t
  have h2 : i / t * t + i % t = i := by
    rw [Nat.mul_comm]
    exact Nat.div_add_mod i t
  have h3 : i % t < t := Nat.mod_lt i (by omega)
  unfold remain
  split <;> omega

/-- Final buffer of the blocked transpose at any address: identical closed
form to the naive transpose. -/
theorem fast_applyWrites_at (t n m : Nat) (ht : 1 ≤ t) (input tmp0 f : Nat → α)
    (a : Nat) :
    applyWrites (fastTransposeWrites t n m input tmp0) f a =
      if 0 < n ∧ a < n * m then input ((a % n) * m + a / n) else f a := by
  rw [fastTransposeWrites_eq]
  by_cases h : 0 < n ∧ a < n * m
  · obtain ⟨hn, ham⟩ := h
    rw [if_pos ⟨hn, ham⟩]
    have hi0 : a % n < n := Nat.mod_lt a hn
    have hamn : a < m * n := by rw [Nat.mul_comm]; exact ham
    have hj0 : a / n < m := (Nat.div_lt_iff_lt_mul hn).mpr hamn
    have hnb0 : a % n / t < nBlocks t n := div_lt_nBlocks t n (a % n) ht hi0
    have hmb0 : a / n / t < nBlocks t m := div_lt_nBlocks t m (a / n) ht hj0
    have hl0 : a % n % t < remain t n (a % n / t * t) := mod_lt_remain t n (a % n) ht hi0
    have hk0 : a / n % t < remain t m (a / n / t * t) := mod_lt_remain t m (a / n) ht hj0
    have hA : a % n / t * t + a % n % t = a % n := by
      rw [Nat.mul_comm]
      exact Nat.div_add_mod (a % n) t
    have hB : a / n / t * t + a / n % t = a / n := by
      rw [Nat.mul_comm]
      exact Nat.div_add_mod (a / n) t
    have hsplit : a / n * n + a % n = a := by
      rw [Nat.mul_comm]
      exact Nat.div_add_mod a n
    -- outer level: only tile row nb0 = a % n / t can write a
    rw [applyWrites_range_flatMap_at (nBlocks t n) _ f a (a % n / t) hnb0 ?nbother]
    case nbother =>
      intro nb hnblt hne p hpmem hpa
      obtain ⟨mb, hmb_mem, hpmb⟩ := List.mem_flatMap.mp hpmem
      exact hne (tile_hit t n m nb mb hn input p hpmb a hpa).1
    -- middle level: only tile column mb0 = a / n / t can write a
    rw [applyWrites_range_flatMap_at (nBlocks t m) _ f a (a / n / t) hmb0 ?mbother]
    case mbother =>
      intro mb hmblt hne p hpmem hpa
      exact hne (tile_hit t n m (a % n / t) mb hn input p hpmem a hpa).2.1
    -- within the tile: only staging column k0 = a / n % t can write a
    unfold tileWrites
    rw [applyWrites_range_flatMap_at (remain t m (a / n / t * t)) _ f a (a / n % t)
      hk0 ?kother]
    case kother =>
      intro k hklt hne p hpmem hpa
      obtain ⟨l, hl_mem, hpl⟩ := List.mem_map.mp hpmem
      have hl : l < remain t n (a % n / t * t) := List.mem_range.mp hl_mem
      have hii : a % n / t * t + l < n := lt_of_lt_remain t n (a % n / t * t) l hl
      have hp1 : p.1 = (a / n / t * t + k) * n + a % n / t * t + l := by rw [← hpl]
      have haddr : (a / n / t * t + k) * n + (a % n / t * t + l) = a := by
        conv_rhs => rw [← hpa, hp1]
        ring
      have hd := decomp_unique n (a / n / t * t + k) (a % n / t * t + l) hii
      have hdiv : a / n = a / n / t * t + k := by
        conv_lhs => rw [← haddr]
        exact hd.2
      have hkt : k < t := lt_of_lt_of_le hklt (remain_le t m (a / n / t * t))
      apply hne
      have := (decomp_unique t (a / n / t) k hkt).1
      omega
    -- innermost: only staging row l0 = a % n % t can write a
    have hmap := applyWrites_range_map_at (remain t n (a % n / t * t))
      (fun l => (a / n / t * t + a / n % t) * n + a % n / t * t + l)
      (fun l => input ((a % n / t * t + l) * m + a / n / t * t + a / n % t))
      f a (a % n % t) hl0 ?laddr ?lother
    case laddr =>
      show (a / n / t * t + a / n % t) * n + a % n / t * t + a % n % t = a
      rw [hB, Nat.add_assoc, hA]
      exact hsplit
    case lother =>
      intro l hllt hne he
      have he' : (a / n / t * t + a / n % t) * n + a % n / t * t + l = a := he
      rw [hB] at he'
      have hll : a % n / t * t + l < n := by
        have := lt_of_lt_remain t n (a % n / t * t) l hllt
        exact this
      have : a % n = a % n / t * t + l := by
        have hgoal : a / n * n + (a % n / t * t + l) = a := by
          rw [← Nat.add_assoc]
          exact he'
        omega
      omega
    rw [hmap]
    show input ((a % n / t * t + a % n % t) * m + a / n / t * t + a / n % t) =
      input (a % n * m + a / n)
    rw [hA, Nat.add_assoc, hB]
  · rw [if_neg h]
    apply applyWrites_eq_of_not_mem
    intro p hp hpa
    obtain ⟨nb, hnb_mem, hpnb⟩ := List.mem_flatMap.mp hp
    obtain ⟨mb, hmb_mem, hpmb⟩ := List.mem_flatMap.mp hpnb
    obtain ⟨k, l, hk, hl, hpe⟩ := tileWrites_mem t n m (nb * t) (mb * t) input p hpmb
    have hii : nb * t + l < n := lt_of_lt_remain t n (nb * t) l hl
    have hjj : mb * t + k < m := lt_of_lt_remain t m (mb * t) k hk
    have hp1 : p.1 = (mb * t + k) * n + (nb * t + l) := by
      rw [hpe]
      ring
    have hlt := addr_lt n m (nb * t + l) (mb * t + k) hii hjj
    exact h ⟨by omega, by omega⟩

/-- Degenerate dimensions: the blocked transpose also emits no writes. -/
theorem fastTransposeWrites_nil (t n m : Nat) (input tmp0 : Nat → α)
    (h : n = 0 ∨ m = 0) : fastTransposeWrites t n m input tmp0 = [] := by
  rw [fastTransposeWrites_eq]
  have h0 : nBlocks t 0 = 0 := by unfold nBlocks; simp
  rcases h with h | h <;> subst h <;> rw [h0] <;> simp

/-! ## Normalizing the generator loops over derivative tags -/

theorem writeEach_eq (cg : CodeGen) (tags : List String) (f : String → String) :
    writeEach cg tags f =
      { cg with events := cg.events ++ tags.map (fun c => CEvent.write (f c)) } := by
  unfold writeEach
  induction tags generalizing cg with
  | nil => simp
  | cons c tags ih =>
      rw [List.foldl_cons, ih]
      unfold CodeGen.write
      simp

theorem checkEach_eq (cg : CodeGen) (tags : List String) (hdr msg : String → String) :
    checkEach cg tags hdr msg =
      { cg with events := cg.events ++ tags.flatMap (fun c =>
          [CEvent.start (hdr c), CEvent.write (msg c), CEvent.close]) } := by
  unfold checkEach
  induction tags generalizing cg with
  | nil => simp
  | cons c tags ih =>
      rw [List.foldl_cons, ih]
      unfold CodeGen.start_c_block CodeGen.write CodeGen.close_c_block
      simp

/-! ## Trace observers -/

/-- Headers of the opened blocks, in emission order. -/
def startsOf (es : List CEvent) : List String :=
  es.filterMap (fun e => match e with
    | CEvent.start s => some s
    | _ => none)

/-- For each opened block, its header together with the event emitted
immediately after the opening (a check block is fail-fast exactly when that
event is its `throw` statement). -/
def nextAfterStart : List CEvent → List (String × Option CEvent)
  | [] => []
  | CEvent.start s :: rest => (s, rest.head?) :: nextAfterStart rest
  | CEvent.write _ :: rest => nextAfterStart rest
  | CEvent.blank :: rest => nextAfterStart rest
  | CEvent.close :: rest => nextAfterStart rest

/-- Number of block-close events in a trace. -/
def closeCount (es : List CEvent) : Nat :=
  es.countP (fun e => match e with
    | CEvent.close => true
    | _ => false)

@[simp] theorem startsOf_nil : startsOf [] = [] := rfl

@[simp] theorem startsOf_cons_write (s : String) (es : List CEvent) :
    startsOf (CEvent.write s :: es) = startsOf es := rfl

@[simp] theorem startsOf_cons_blank (es : List CEvent) :
    startsOf (CEvent.blank :: es) = startsOf es := rfl

@[simp] theorem startsOf_cons_close (es : List CEvent) :
    startsOf (CEvent.close :: es) = startsOf es := rfl

@[simp] theorem startsOf_cons_start (s : String) (es : List CEvent) :
    startsOf (CEvent.start s :: es) = s :: startsOf es := rfl

@[simp] theorem startsOf_append (a b : List CEvent) :
    startsOf (a ++ b) = startsOf a ++ startsOf b := by
  unfold startsOf
  exact List.filterMap_append _ _ _

@[simp] theorem startsOf_writes (tags : List String) (f : String → String) :
    startsOf (tags.map (fun c => CEvent.write (f c))) = [] := by
  induction tags with
  | nil => rfl
  | cons c tags ih => simpa using ih

@[simp] theorem startsOf_checks (tags : List String) (hdr msg : String → String) :
    startsOf (tags.flatMap (fun c =>
      [CEvent.start (hdr c), CEvent.write (msg c), CEvent.close])) = tags.map hdr := by
  induction tags with
  | nil => rfl
  | cons c tags ih => simp [ih]

@[simp] theorem nextAfterStart_nil : nextAfterStart [] = [] := rfl

@[simp] theorem nextAfterStart_cons_write (s : String) (es : List CEvent) :
    nextAfterStart (CEvent.write s :: es) = nextAfterStart es := rfl

@[simp] theorem nextAfterStart_cons_blank (es : List CEvent) :
    nextAfterStart (CEvent.blank :: es) = nextAfterStart es := rfl

@[simp] theorem nextAfterStart_cons_close (es : List CEvent) :
    nextAfterStart (CEvent.close :: es) = nextAfterStart es := rfl

@[simp] theorem nextAfterStart_cons_start (s : String) (es : List CEvent) :
    nextAfterStart (CEvent.start s :: es) = (s, es.head?) :: nextAfterStart es := rfl

@[simp] theorem nextAfterStart_writeSeg (tags : List String) (f : String → String)
    (es : List CEvent) :
    nextAfterStart (tags.map (fun c => CEvent.write (f c)) ++ es) = nextAfterStart es := by
  induction tags with
  | nil => rfl
  | cons c tags ih => simpa using ih

@[simp] theorem nextAfterStart_checkSeg (tags : List String) (hdr msg : String → String)
    (es : List CEvent) :
    nextAfterStart (tags.flatMap (fun c =>
      [CEvent.start (hdr c), CEvent.write (msg c), CEvent.close]) ++ es) =
      tags.map (fun c => (hdr c, some (CEvent.write (msg c)))) ++ nextAfterStart es := by
  induction tags with
  | nil => rfl
  | cons c tags ih => simp [ih]

@[simp] theorem closeCount_nil : closeCount [] = 0 := rfl

@[simp] theorem closeCount_cons_write (s : String) (es : List CEvent) :
    closeCount (CEvent.write s :: es) = closeCount es := by
  unfold closeCount
  simp [List.countP_cons]

@[simp] theorem closeCount_cons_blank (es : List CEvent) :
    closeCount (CEvent.blank :: es) = closeCount es := by
  unfold closeCount
  simp [List.countP_cons]

@[simp] theorem closeCount_cons_start (s : String) (es : List CEvent) :
    closeCount (CEvent.start s :: es) = closeCount es := by
  unfold closeCount
  simp [List.countP_cons]

@[simp] theorem closeCount_cons_close (es : List CEvent) :
    closeCount (CEvent.close :: es) = closeCount es + 1 := by
  unfold closeCount
  simp [List.countP_cons]

@[simp] theorem closeCount_append (a b : List CEvent) :
    closeCount (a ++ b) = closeCount a + closeCount b := by
  unfold closeCount
  simp [List.countP_append]

@[simp] theorem closeCount_writes (tags : List String) (f : String → String) :
    closeCount (tags.map (fun c => CEvent.write (f c))) = 0 := by
  induction tags with
  | nil => rfl
  | cons c tags ih => simpa using ih

@[simp] theorem closeCount_checks (tags : List String) (hdr msg : String → String) :
    closeCount (tags.flatMap (fun c =>
      [CEvent.start (hdr c), CEvent.write (msg c), CEvent.close])) = tags.length := by
  induction tags with
  | nil => rfl
  | cons c tags ih => simp [ih, Nat.add_comm]

/-! ## Closed forms of the generator traces -/

/-- Derived normal form: everything `pybind11_func` emits before the final
kernel-call comment, the kernel call itself, and the closing of the wrapper
body (i.e. the pointer grabs, the `nsize` computation and all validation
checks). -/
def pfChecksPre (name : String) (dIdx : List String) (maxL : Nat) : List CEvent :=
  [CEvent.start (pybindSig name dIdx), CEvent.blank,
   CEvent.write ("// Grab array pointers"),
   CEvent.write ("auto xyz = arr_xyz.unchecked<2>()"),
   CEvent.write ("auto coeffs = arr_coeffs.unchecked<1>()"),
   CEvent.write ("auto exponents = arr_exponents.unchecked<1>()"),
   CEvent.write ("auto center = arr_center.unchecked<1>()"),
   CEvent.write ("auto out = arr_out.mutable_unchecked<2>()")]
  ++ dIdx.map (fun c =>
      CEvent.write ("auto out_" ++ c ++ " = arr_" ++ c ++ "_out.mutable_unchecked<2>()"))
  ++ [CEvent.blank,
      CEvent.write ("// XYZ is of size 3"),
      CEvent.start ("if (L > " ++ toString maxL ++ ")"),
      CEvent.write ("    throw std::invalid_argument(\"Exceeded compiled angular momentum of "
        ++ toString maxL ++ ". Please recompile with a higher angular momentum.\\n\")"),
      CEvent.close,
      CEvent.write ("// XYZ is of size 3"),
      CEvent.start ("if (arr_xyz.shape(0) != 3)"),
      CEvent.write ("    throw std::length_error(\"Length of XYZ array must be (3, n).\\n\")"),
      CEvent.close, CEvent.blank,
      CEvent.write ("// Coeff matches exponent shape"),
      CEvent.start ("if (coeffs.shape(0) != exponents.shape(0))"),
      CEvent.write ("    throw std::length_error(\"Length of coefficients and exponents must match.\\n\")"),
      CEvent.close, CEvent.blank,
      CEvent.write ("// Center is of size 3"),
      CEvent.start ("if (center.shape(0) != 3)"),
      CEvent.write ("    throw std::length_error(\"Length of center vector must be 3 (X, Y, Z).\\n\")"),
      CEvent.close, CEvent.blank,
      CEvent.write ("// Make sure output length matches"),
      CEvent.write ("size_t nsize"),
      CEvent.start ("if (spherical)"),
      CEvent.write ("    nsize = 2 * L + 1"),
      CEvent.write ("\x7d else \x7b"),
      CEvent.write ("    nsize = ((L + 2) * (L + 1)) / 2"),
      CEvent.close, CEvent.blank,
      CEvent.start ("if (out.shape(0) != nsize)"),
      CEvent.write ("    throw std::length_error(\"Size of the output array does not match the angular momentum.\\n\")"),
      CEvent.close]
  ++ dIdx.flatMap (fun c =>
      [CEvent.start ("if (out_" ++ c ++ ".shape(0) != nsize)"),
       CEvent.write ("    throw std::length_error(\"Size of the output " ++ c.toUpper
         ++ " array does not match the angular momentum.\\n\")"),
       CEvent.close])
  ++ [CEvent.blank,
      CEvent.write ("// Ensure lengths match"),
      CEvent.start ("if (out.shape(1) != arr_xyz.shape(1))"),
      CEvent.write ("    throw std::length_error(\"Size of the output array and XYZ array must be the same.\\n\")"),
      CEvent.close]
  ++ dIdx.flatMap (fun c =>
      [CEvent.start ("if (out_" ++ c ++ ".shape(1) != arr_xyz.shape(1))"),
       CEvent.write ("    throw std::length_error(\"Size of the output " ++ c.toUpper
         ++ " array and XYZ array must be the same.\\n\")"),
       CEvent.close])
  ++ [CEvent.blank]

/-- Master normal form of `pybind11_func`: it appends the validation prefix
followed by the kernel call and the closing of the wrapper body, and restores
the emitter's block stack, indentation and error flag. -/
theorem pybind11_func_eq (cg : CodeGen) (name cn : String) (dIdx : List String)
    (maxL : Nat) :
    pybind11_func cg name dIdx cn maxL =
      { cg with events := cg.events ++ (pfChecksPre name dIdx maxL ++
          [CEvent.write ("// Call the GG helper function"),
           CEvent.write (ggCall cn dIdx), CEvent.close]) } := by
  simp [pybind11_func, pfChecksPre, CodeGen.write, CodeGen.start_c_block,
    CodeGen.close_c_block, CodeGen.blankline, writeEach_eq, checkEach_eq]

/-- Master normal form of `pybind11_transpose`. -/
theorem pybind11_transpose_eq (cg : CodeGen) (fn wn : String) :
    pybind11_transpose cg fn wn =
      { cg with events := cg.events ++
          [CEvent.start ("void " ++ wn ++ "(py::array_t<double> arr_input"
             ++ ", py::array_t<double> arr_output)"),
           CEvent.write ("auto input = arr_input.unchecked<2>()"),
           CEvent.write ("auto output = arr_output.mutable_unchecked<2>()"),
           CEvent.write ("size_t n = input.shape(0)"),
           CEvent.write ("size_t m = input.shape(1)"),
           CEvent.blank,
           CEvent.write ("// Check shapes"),
           CEvent.start ("if (input.shape(0) != output.shape(1))"),
           CEvent.write ("    throw std::length_error(\"Input tranpose shape 0 does not match output transpose shape 1.\\n\")"),
           CEvent.close, CEvent.blank,
           CEvent.start ("if (input.shape(1) != output.shape(0))"),
           CEvent.write ("    throw std::length_error(\"Input tranpose shape 1 does not match output transpose shape 0.\\n\")"),
           CEvent.close, CEvent.blank,
           CEvent.write (fn ++ "(n, m, input.data(0, 0), output.mutable_data(0, 0))"),
           CEvent.close] } := by
  simp [pybind11_transpose, CodeGen.write, CodeGen.start_c_block,
    CodeGen.close_c_block, CodeGen.blankline]

/-- Master normal form of `naive_transpose`. -/
theorem naive_transpose_eq (cg : CodeGen) :
    naive_transpose cg =
      ({ cg with events := cg.events ++
          [CEvent.start ("void gg_naive_transpose(size_t n, size_t m, const double* __restrict__ input, double* __restrict__ output)"),
           CEvent.start ("for (size_t i = 0; i < n; i++)"),
           CEvent.start ("for (size_t j = 0; j < m; j++)"),
           CEvent.write ("output[j * n + i] = input[i * m + j]"),
           CEvent.close, CEvent.close, CEvent.close] },
       "void gg_naive_transpose(size_t n, size_t m, const double* __restrict__ input, double* __restrict__ output)") := by
  simp [naive_transpose, CodeGen.write, CodeGen.start_c_block, CodeGen.close_c_block]

/-- Master normal form of `fast_transpose` at tile size `t`. -/
theorem fast_transpose_eq (cg : CodeGen) (t : Nat) :
    fast_transpose cg t =
      ({ cg with events := cg.events ++
          [CEvent.start ("void gg_fast_transpose(size_t n, size_t m, const double* __restrict__ input, double* __restrict__ output)"),
           CEvent.blank,
           CEvent.write ("// Temps"),
           CEvent.write ("double tmp[" ++ toString (t * t) ++ "]  __attribute__((aligned(64)))"),
           CEvent.write ("// Sizing"),
           CEvent.write ("size_t nblocks = n / " ++ toString t),
           CEvent.write ("nblocks += (n % " ++ toString t ++ ") ? 1 : 0"),
           CEvent.write ("size_t mblocks = m / " ++ toString t),
           CEvent.write ("mblocks += (m % " ++ toString t ++ ") ? 1 : 0"),
           CEvent.write ("// Outer blocks"),
           CEvent.start ("for (size_t nb = 0; nb < nblocks; nb++)"),
           CEvent.write ("const size_t nstart = nb * " ++ toString t),
           CEvent.write ("size_t nremain = ((nstart + " ++ toString t
             ++ ") > n) ? (n - nstart) : " ++ toString t),
           CEvent.start ("for (size_t mb = 0; mb < mblocks; mb++)"),
           CEvent.write ("const size_t mstart = mb * " ++ toString t),
           CEvent.write ("size_t mremain = ((mstart + " ++ toString t
             ++ ") > m) ? (m - mstart) : " ++ toString t),
           CEvent.write ("// Copy data to inner block"),
           CEvent.start ("for (size_t l = 0; l < nremain; l++)"),
           CEvent.write ("const size_t start = (nstart + l) * m + mstart"),
           CEvent.start ("for (size_t k = 0; k < mremain; k++)"),
           CEvent.write ("tmp[k * " ++ toString t ++ " + l] = input[start + k]"),
           CEvent.close, CEvent.close,
           CEvent.write ("// Copy data to inner block"),
           CEvent.start ("for (size_t k = 0; k < mremain; k++)"),
           CEvent.write ("const size_t start = (mstart + k) * n + nstart"),
           CEvent.start ("for (size_t l = 0; l < nremain; l++)"),
           CEvent.write ("output[start + l] = tmp[k * " ++ toString t ++ " + l]"),
           CEvent.close, CEvent.close, CEvent.close, CEvent.close, CEvent.close] },
       "void gg_fast_transpose(size_t n, size_t m, const double* __restrict__ input, double* __restrict__ output)") := by
  simp [fast_transpose, CodeGen.write, CodeGen.start_c_block, CodeGen.close_c_block,
    CodeGen.blankline]

/-- Master normal form of `block_copy`. -/
theorem block_copy_eq (cg : CodeGen) :
    block_copy cg =
      ({ cg with events := cg.events ++
          [CEvent.start ("void block_copy(size_t n, size_t m, const double* __restrict__ input, size_t is, double* __restrict__ output, size_t os, const int trans)"),
           CEvent.blank,
           CEvent.start ("for (size_t i = 0; i < n; i++)"),
           CEvent.write ("const size_t out_shift = i * os"),
           CEvent.write ("const size_t inp_shift = i * is"),
           CEvent.blank,
           CEvent.start ("for (size_t j = 0; j < m; j++)"),
           CEvent.write ("output[out_shift + j] = input[inp_shift + j]"),
           CEvent.close, CEvent.close, CEvent.close] },
       "void block_copy(size_t n, size_t m, const double* __restrict__ input, size_t is, double* __restrict__ output, size_t os, const int trans)") := by
  simp [block_copy, CodeGen.write, CodeGen.start_c_block, CodeGen.close_c_block,
    CodeGen.blankline]

/-! ## String helpers for the call/signature argument lists -/

/-- Comma-separated rendering of a positional argument list. -/
def commaSep : List String → String
  | [] => ""
  | a :: rest => rest.foldl (fun s x => s ++ ", " ++ x) a

/-- Concatenation of a list of strings. -/
def strConcat (l : List String) : String := l.foldl (fun s x => s ++ x) ""

theorem foldl_append_pull (l : List String) (g : String → String) (u v : String) :
    l.foldl (fun s c => s ++ g c) (u ++ v) = u ++ l.foldl (fun s c => s ++ g c) v := by
  induction l generalizing v with
  | nil => rfl
  | cons c l ih =>
      rw [List.foldl_cons, List.foldl_cons, String.append_assoc, ih]

theorem commaSep_cons (a : String) (l : List String) :
    commaSep (a :: l) = l.foldl (fun s x => s ++ ", " ++ x) a := rfl

theorem strConcat_cons (x : String) (l : List String) :
    strConcat (x :: l) = x ++ strConcat l := by
  unfold strConcat
  rw [List.foldl_cons]
  have h1 : ("" ++ x : String) = x := String.empty_append x
  rw [h1]
  have h2 := foldl_append_pull l (fun c => c) x ""
  rw [String.append_empty] at h2
  exact h2

theorem foldl_concat (l : List String) (g : String → String) (s : String) :
    l.foldl (fun acc c => acc ++ g c) s = s ++ strConcat (l.map g) := by
  induction l generalizing s with
  | nil => rw [List.foldl_nil, List.map_nil]; exact (String.append_empty s).symm
  | cons c l ih =>
      rw [List.foldl_cons, ih, List.map_cons, strConcat_cons, String.append_assoc]

theorem comma_out_split (c M : String) :
    ", out_" ++ c ++ M = ", " ++ ("out_" ++ c ++ M) := by
  apply String.ext
  simp only [String.data_append]
  simp

/-- The kernel-call string built by `pybind11_func` is the kernel name applied
to this comma-separated positional argument list: the fixed eleven arguments,
then one `out_<tag>` data pointer per derivative tag in provider order. -/
theorem ggCall_args (cn : String) (dIdx : List String) :
    ggCall cn dIdx = cn ++ "(" ++ commaSep
      (["L", "xyz.shape(1)", "xyz.data(0, 0)", "xyz.data(1, 0)", "xyz.data(2, 0)",
        "coeffs.shape(0)", "coeffs.data(0)", "exponents.data(0)", "center.data(0)",
        "spherical", "out.mutable_data(0, 0)"]
       ++ dIdx.map (fun c => "out_" ++ c ++ ".mutable_data(0, 0)")) ++ ")" := by
  unfold ggCall
  simp only [List.cons_append, List.nil_append, commaSep_cons, List.foldl_cons,
    List.foldl_append, List.foldl_map]
  have hsplit : (cn ++ "(L, xyz.shape(1)" ++ ", xyz.data(0, 0), xyz.data(1, 0), xyz.data(2, 0)"
      ++ ", coeffs.shape(0), coeffs.data(0), exponents.data(0)" ++ ", center.data(0)"
      ++ ", spherical" ++ ", out.mutable_data(0, 0)") = (cn ++ "(") ++
      ("L" ++ ", " ++ "xyz.shape(1)" ++ ", " ++ "xyz.data(0, 0)" ++ ", " ++ "xyz.data(1, 0)"
        ++ ", " ++ "xyz.data(2, 0)" ++ ", " ++ "coeffs.shape(0)" ++ ", " ++ "coeffs.data(0)"
        ++ ", " ++ "exponents.data(0)" ++ ", " ++ "center.data(0)" ++ ", " ++ "spherical"
        ++ ", " ++ "out.mutable_data(0, 0)") := by
    simp [String.append_assoc]
  rw [hsplit, foldl_append_pull]
  rw [List.foldl_ext (fun s c => s ++ (", out_" ++ c ++ ".mutable_data(0, 0)"))
    (fun s c => s ++ ", " ++ ("out_" ++ c ++ ".mutable_data(0, 0)")) _
    (fun a b _ => by
      show a ++ (", out_" ++ b ++ ".mutable_data(0, 0)") =
        a ++ ", " ++ ("out_" ++ b ++ ".mutable_data(0, 0)")
      rw [comma_out_split, ← String.append_assoc])]

/-- The wrapper signature built by `pybind11_func` appends exactly one
`py::array_t<double> arr_<tag>_out` parameter per derivative tag, in provider
order, after the fixed parameter list. -/
theorem pybindSig_params (name : String) (dIdx : List String) :
    pybindSig name dIdx =
      "void " ++ name ++ "(int L, py::array_t<double> arr_xyz, py::array_t<double> arr_coeffs,\npy::array_t<double> arr_exponents, py::array_t<double> arr_center, bool spherical,\npy::array_t<double> arr_out"
      ++ strConcat (dIdx.map (fun c => ", py::array_t<double> arr_" ++ c ++ "_out")) ++ ")" := by
  unfold pybindSig
  rw [foldl_concat]

/-- The per-derivative row-count error message determines the tag's uppercase
form: distinct uppercased tags give distinct messages. -/
theorem rowMsg_inj (c₁ c₂ : String)
    (h : "    throw std::length_error(\"Size of the output " ++ c₁.toUpper
        ++ " array does not match the angular momentum.\\n\")" =
      "    throw std::length_error(\"Size of the output " ++ c₂.toUpper
        ++ " array does not match the angular momentum.\\n\")") :
    c₁.toUpper = c₂.toUpper := by
  have hd := congrArg String.data h
  simp only [String.data_append] at hd
  rw [List.append_assoc, List.append_assoc] at hd
  apply String.ext
  have h1 := List.append_cancel_left hd
  exact List.append_cancel_right h1

/-- No per-derivative row-count message collides with the primary output's
row-count message. -/
theorem rowMsg_ne_primary (c : String) :
    "    throw std::length_error(\"Size of the output " ++ c.toUpper
      ++ " array does not match the angular momentum.\\n\")" ≠
    "    throw std::length_error(\"Size of the output array does not match the angular momentum.\\n\")" := by
  intro h
  have hlen := congrArg String.length h
  rw [String.length_append, String.length_append] at hlen
  have hc : ("    throw std::length_error(\"Size of the output " : String).length
      + (" array does not match the angular momentum.\\n\")" : String).length
      = ("    throw std::length_error(\"Size of the output array does not match the angular momentum.\\n\")" : String).length + 1 := by
    decide
  omega

/-! ## Claim theorems -/

/-- Claim C1: for every `n, m ≥ 0`, every tile size `t ≥ 1` and every
row-major input buffer, the routine emitted by `fast_transpose` produces an
output buffer element-wise identical to the one produced by the routine
emitted by `naive_transpose` — for any initial output contents `f` and any
initial staging-buffer garbage `tmp0` — and when `n = 0` or `m = 0` both
routines perform no writes at all. -/
theorem claim_fast_transpose_equals_naive {α : Type} (t n m : Nat) (ht : 1 ≤ t)
    (input tmp0 f : Nat → α) :
    applyWrites (fastTransposeWrites t n m input tmp0) f =
      applyWrites (naiveTransposeWrites n m input) f
    ∧ (n = 0 ∨ m = 0 → fastTransposeWrites t n m input tmp0 = []
        ∧ naiveTransposeWrites n m input = []) := by
  constructor
  · funext a
    rw [fast_applyWrites_at t n m ht, naive_applyWrites_at]
  · intro h
    exact ⟨fastTransposeWrites_nil t n m input tmp0 h,
           naiveTransposeWrites_nil n m input h⟩

theorem claim_fast_transpose_equals_naive_witness :
    1 ≤ 2 ∧
    applyWrites (fastTransposeWrites 2 3 2 (fun a => a) (fun _ => 0)) (fun _ => 77) =
      applyWrites (naiveTransposeWrites 3 2 (fun a => a)) (fun _ => 77) :=
  ⟨by decide,
   (claim_fast_transpose_equals_naive 2 3 2 (by decide)
     (fun a => a) (fun _ => 0) (fun _ => 77)).1⟩

/-- Claim C6: the routine emitted by `naive_transpose` writes
`output[j * n + i] = input[i * m + j]` for every `(i, j)` in
`[0,n) × [0,m)` (so the final buffer holds the transposed element at every
such address), and performs no writes when `n = 0` or `m = 0`. -/
theorem claim_naive_transpose_semantics {α : Type} (n m : Nat) (input f : Nat → α) :
    (∀ i, i < n → ∀ j, j < m →
      applyWrites (naiveTransposeWrites n m input) f (j * n + i) = input (i * m + j))
    ∧ (∀ i, i < n → ∀ j, j < m →
      (j * n + i, input (i * m + j)) ∈ naiveTransposeWrites n m input)
    ∧ ((n = 0 ∨ m = 0) → naiveTransposeWrites n m input = []) := by
  refine ⟨?_, ?_, naiveTransposeWrites_nil n m input⟩
  · intro i hi j hj
    rw [naive_applyWrites_at]
    have hlt := addr_lt n m i j hi hj
    rw [if_pos ⟨by omega, hlt⟩]
    have hd := decomp_unique n j i hi
    rw [hd.1, hd.2]
  · intro i hi j hj
    unfold naiveTransposeWrites
    refine List.mem_flatMap.mpr ⟨i, List.mem_range.mpr hi, ?_⟩
    exact List.mem_map.mpr ⟨j, List.mem_range.mpr hj, rfl⟩

theorem claim_naive_transpose_semantics_witness :
    (0 : Nat) < 2 ∧ (1 : Nat) < 3 ∧
    applyWrites (naiveTransposeWrites 2 3 (fun a => a)) (fun _ => 9) (1 * 2 + 0) =
      (fun a : Nat => a) (0 * 3 + 1) :=
  ⟨by decide, by decide,
   (claim_naive_transpose_semantics 2 3 (fun a => a) (fun _ => 9)).1 0 (by decide)
     1 (by decide)⟩

/-- Claim C7: in the routine emitted by `fast_transpose` with tile size `t`,
the clamped tile bounds emitted at tile origins `nstart`, `mstart` equal
`min t (n - nstart)` and `min t (m - mstart)`, and the gather phase leaves
the staging buffer already transposed:
`tmp[k * t + l] = input[(nstart + l) * m + mstart + k]` for every in-bounds
`l < nremain`, `k < mremain`, whatever the staging buffer held before — so no
separate in-buffer transpose step is needed (none is emitted). -/
theorem claim_tile_bounds_and_gather {α : Type} (t n m nstart mstart k l : Nat)
    (input tmp : Nat → α)
    (hk : k < remain t m mstart) (hl : l < remain t n nstart) :
    remain t n nstart = min t (n - nstart)
    ∧ remain t m mstart = min t (m - mstart)
    ∧ gatherTile t n m nstart mstart input tmp (k * t + l) =
        input ((nstart + l) * m + mstart + k) :=
  ⟨remain_eq_min t n nstart, remain_eq_min t m mstart,
   gatherTile_at t n m nstart mstart input tmp k l hk hl⟩

theorem claim_tile_bounds_and_gather_witness :
    ((1 : Nat) < remain 2 3 0 ∧ (0 : Nat) < remain 2 3 2) ∧
    (remain 2 3 2 = min 2 (3 - 2) ∧ remain 2 3 0 = min 2 (3 - 0) ∧
      gatherTile 2 3 3 2 0 (fun a => a) (fun _ => 99) (1 * 2 + 0) =
        (fun a : Nat => a) ((2 + 0) * 3 + 0 + 1)) :=
  ⟨⟨by decide, by decide⟩,
   claim_tile_bounds_and_gather 2 3 3 2 0 1 0 (fun a => a) (fun _ => 99)
     (by decide) (by decide)⟩

/-- Claim C8: the routine emitted by `block_copy` copies
`output[i * os + j] = input[i * is + j]` for every `i < n`, `j < m`, row by
row; the emitted body never reads the `trans` flag, so two calls differing
only in `trans` produce identical write lists; with non-overlapping rows
(`m ≤ os`) the final buffer holds exactly the copied elements. -/
theorem claim_block_copy_semantics {α : Type} (n m : Nat) (input f : Nat → α)
    (istride ostride : Nat) (t₁ t₂ : Int) :
    blockCopyWrites n m input istride ostride t₁ =
      blockCopyWrites n m input istride ostride t₂
    ∧ (∀ i, i < n → ∀ j, j < m →
        (i * ostride + j, input (i * istride + j))
          ∈ blockCopyWrites n m input istride ostride t₁)
    ∧ (m ≤ ostride → ∀ i, i < n → ∀ j, j < m →
        applyWrites (blockCopyWrites n m input istride ostride t₁) f
          (i * ostride + j) = input (i * istride + j)) := by
  refine ⟨rfl, ?_, ?_⟩
  · intro i hi j hj
    unfold blockCopyWrites
    refine List.mem_flatMap.mpr ⟨i, List.mem_range.mpr hi, ?_⟩
    exact List.mem_map.mpr ⟨j, List.mem_range.mpr hj, rfl⟩
  · intro hms i hi j hj
    unfold blockCopyWrites
    rw [applyWrites_range_flatMap_at n _ f (i * ostride + j) i hi ?rother]
    case rother =>
      intro i' hi' hne p hpmem hpa
      obtain ⟨j', hj'_mem, hpj⟩ := List.mem_map.mp hpmem
      have hj' : j' < m := List.mem_range.mp hj'_mem
      have hp1 : p.1 = i' * ostride + j' := by rw [← hpj]
      apply hne
      have heq : i' * ostride + j' = i * ostride + j := by rw [← hp1, hpa]
      have hd1 := decomp_unique ostride i' j' (by omega)
      have hd2 := decomp_unique ostride i j (by omega)
      rw [heq] at hd1
      omega
    rw [applyWrites_range_map_at m (fun j' => i * ostride + j')
      (fun j' => input (i * istride + j')) f (i * ostride + j) j hj rfl ?cother]
    case cother =>
      intro j' hj' hne he
      have he' : i * ostride + j' = i * ostride + j := he
      omega

theorem claim_block_copy_semantics_witness :
    (2 : Nat) ≤ 3 ∧
    applyWrites (blockCopyWrites 2 2 (fun a => a) 2 3 0) (fun _ => 9) (1 * 3 + 1) =
      (fun a : Nat => a) (1 * 2 + 1) :=
  ⟨by decide,
   (claim_block_copy_semantics 2 2 (fun a => a) (fun _ => 9) 2 3 0 1).2.2
     (by decide) 1 (by decide) 1 (by decide)⟩

/-- Claim C10: every staging-buffer access `tmp[k * t + l]` of the routine
emitted by `fast_transpose` — the gather-phase writes (whose target indices
are the addresses of `gatherWrites`) and the scatter-phase reads (at
`k * t + l` for `k < mremain`, `l < nremain`) — stays below `t * t`, the
staging buffer's declared size. -/
theorem claim_staging_buffer_safe {α : Type} (t n m nstart mstart : Nat)
    (input : Nat → α) :
    (∀ p ∈ gatherWrites t n m nstart mstart input, p.1 < t * t)
    ∧ (∀ k l, k < remain t m mstart → l < remain t n nstart →
        k * t + l < t * t) := by
  have hcore : ∀ k l, k < remain t m mstart → l < remain t n nstart →
      k * t + l < t * t := by
    intro k l hk hl
    have hkt : k < t := lt_of_lt_of_le hk (remain_le t m mstart)
    have hlt : l < t := lt_of_lt_of_le hl (remain_le t n nstart)
    exact addr_lt t t l k hlt hkt
  refine ⟨?_, hcore⟩
  intro p hp
  unfold gatherWrites at hp
  obtain ⟨l, hl_mem, hpl⟩ := List.mem_flatMap.mp hp
  obtain ⟨k, hk_mem, hpk⟩ := List.mem_map.mp hpl
  have hk : k < remain t m mstart := List.mem_range.mp hk_mem
  have hl : l < remain t n nstart := List.mem_range.mp hl_mem
  have hp1 : p.1 = k * t + l := by rw [← hpk]
  rw [hp1]
  exact hcore k l hk hl

theorem claim_staging_buffer_safe_witness :
    ((1 : Nat) < remain 2 5 0 ∧ (1 : Nat) < remain 2 5 0) ∧ 1 * 2 + 1 < 2 * 2 :=
  ⟨⟨by decide, by decide⟩,
   (claim_staging_buffer_safe 2 5 5 0 0 (fun a : Nat => a)).2 1 1
     (by decide) (by decide)⟩

/-- Claim C2: in the wrapper emitted by `pybind11_func`, for every derivative
tag list, the opened blocks are: the signature, then the validation checks in
exactly the order (1) requested order vs `max_L`, (2) coordinate first
dimension, (3) coefficient/exponent length, (4) center length, then the
`if (spherical)` branch of the `nsize` computation (not a check), then
(5) one row-count check for the primary output followed by one per derivative
tag, and (6) one point-count check for the primary output followed by one per
derivative tag.  Every check block's immediately following event is its
`throw` statement (fail-fast), and every opened block — hence every check —
lies in the part of the trace emitted before the kernel call. -/
theorem claim_wrapper_validation_order (name cn : String) (dIdx : List String)
    (maxL : Nat) :
    startsOf ((pybind11_func emptyCG name dIdx cn maxL).events) =
      [pybindSig name dIdx,
       "if (L > " ++ toString maxL ++ ")",
       "if (arr_xyz.shape(0) != 3)",
       "if (coeffs.shape(0) != exponents.shape(0))",
       "if (center.shape(0) != 3)",
       "if (spherical)",
       "if (out.shape(0) != nsize)"]
      ++ dIdx.map (fun c => "if (out_" ++ c ++ ".shape(0) != nsize)")
      ++ ["if (out.shape(1) != arr_xyz.shape(1))"]
      ++ dIdx.map (fun c => "if (out_" ++ c ++ ".shape(1) != arr_xyz.shape(1))")
    ∧ nextAfterStart ((pybind11_func emptyCG name dIdx cn maxL).events) =
      [(pybindSig name dIdx, some CEvent.blank),
       ("if (L > " ++ toString maxL ++ ")",
        some (CEvent.write ("    throw std::invalid_argument(\"Exceeded compiled angular momentum of "
          ++ toString maxL ++ ". Please recompile with a higher angular momentum.\\n\")"))),
       ("if (arr_xyz.shape(0) != 3)",
        some (CEvent.write ("    throw std::length_error(\"Length of XYZ array must be (3, n).\\n\")"))),
       ("if (coeffs.shape(0) != exponents.shape(0))",
        some (CEvent.write ("    throw std::length_error(\"Length of coefficients and exponents must match.\\n\")"))),
       ("if (center.shape(0) != 3)",
        some (CEvent.write ("    throw std::length_error(\"Length of center vector must be 3 (X, Y, Z).\\n\")"))),
       ("if (spherical)", some (CEvent.write ("    nsize = 2 * L + 1"))),
       ("if (out.shape(0) != nsize)",
        some (CEvent.write ("    throw std::length_error(\"Size of the output array does not match the angular momentum.\\n\")")))]
      ++ dIdx.map (fun c => ("if (out_" ++ c ++ ".shape(0) != nsize)",
        some (CEvent.write ("    throw std::length_error(\"Size of the output " ++ c.toUpper
          ++ " array does not match the angular momentum.\\n\")"))))
      ++ [("if (out.shape(1) != arr_xyz.shape(1))",
        some (CEvent.write ("    throw std::length_error(\"Size of the output array and XYZ array must be the same.\\n\")")))]
      ++ dIdx.map (fun c => ("if (out_" ++ c ++ ".shape(1) != arr_xyz.shape(1))",
        some (CEvent.write ("    throw std::length_error(\"Size of the output " ++ c.toUpper
          ++ " array and XYZ array must be the same.\\n\")"))))
    ∧ (pybind11_func emptyCG name dIdx cn maxL).events =
        pfChecksPre name dIdx maxL ++
          [CEvent.write ("// Call the GG helper function"),
           CEvent.write (ggCall cn dIdx), CEvent.close]
    ∧ startsOf (pfChecksPre name dIdx maxL) =
        startsOf ((pybind11_func emptyCG name dIdx cn maxL).events) := by
  refine ⟨?_, ?_, ?_, ?_⟩ <;>
    simp [pybind11_func_eq, pfChecksPre, emptyCG]

/-- Claim C5: `pybind11_transpose` emits a two-buffer wrapper whose full
trace is: signature block; pointer and dimension grabs with
`n = input.shape(0)` and `m = input.shape(1)`; a check
`input.shape(0) != output.shape(1)` whose body throws; then a check
`input.shape(1) != output.shape(0)` whose body throws; then exactly one call
to the named transpose function with `(n, m, input pointer, output pointer)`;
then the wrapper's close.  Both checks precede the call. -/
theorem claim_transpose_wrapper (fn wn : String) :
    (pybind11_transpose emptyCG fn wn).events =
      [CEvent.start ("void " ++ wn ++ "(py::array_t<double> arr_input"
         ++ ", py::array_t<double> arr_output)"),
       CEvent.write ("auto input = arr_input.unchecked<2>()"),
       CEvent.write ("auto output = arr_output.mutable_unchecked<2>()"),
       CEvent.write ("size_t n = input.shape(0)"),
       CEvent.write ("size_t m = input.shape(1)"),
       CEvent.blank,
       CEvent.write ("// Check shapes"),
       CEvent.start ("if (input.shape(0) != output.shape(1))"),
       CEvent.write ("    throw std::length_error(\"Input tranpose shape 0 does not match output transpose shape 1.\\n\")"),
       CEvent.close, CEvent.blank,
       CEvent.start ("if (input.shape(1) != output.shape(0))"),
       CEvent.write ("    throw std::length_error(\"Input tranpose shape 1 does not match output transpose shape 0.\\n\")"),
       CEvent.close, CEvent.blank,
       CEvent.write (fn ++ "(n, m, input.data(0, 0), output.mutable_data(0, 0))"),
       CEvent.close] := by
  rw [pybind11_transpose_eq]
  simp [emptyCG]

/-- Claim C9: every generator of the module issues `start_c_block` and
`close_c_block` on the shared emitter in equal, well-nested numbers, for
every input: starting from any emitter state, each generator leaves the
emitter's open-block stack, indentation level and error flag exactly as it
found them (so no generator can close a block it did not open or leave one of
its own open), and emits equally many block opens and closes
(`8 + 2·|tags|` for `pybind11_func`, 3 for `pybind11_transpose`,
3 for `naive_transpose`, 7 for `fast_transpose`, 3 for `block_copy`). -/
theorem claim_generators_balanced (cg : CodeGen) (name cn fn wn : String)
    (dIdx : List String) (maxL t : Nat) :
    ((pybind11_func cg name dIdx cn maxL).blocks = cg.blocks
     ∧ (pybind11_func cg name dIdx cn maxL).indent = cg.indent
     ∧ (pybind11_func cg name dIdx cn maxL).errored = cg.errored
     ∧ (startsOf (pybind11_func cg name dIdx cn maxL).events).length
         = (startsOf cg.events).length + (8 + 2 * dIdx.length)
     ∧ closeCount (pybind11_func cg name dIdx cn maxL).events
         = closeCount cg.events + (8 + 2 * dIdx.length))
    ∧ ((pybind11_transpose cg fn wn).blocks = cg.blocks
     ∧ (pybind11_transpose cg fn wn).indent = cg.indent
     ∧ (pybind11_transpose cg fn wn).errored = cg.errored
     ∧ (startsOf (pybind11_transpose cg fn wn).events).length
         = (startsOf cg.events).length + 3
     ∧ closeCount (pybind11_transpose cg fn wn).events = closeCount cg.events + 3)
    ∧ ((naive_transpose cg).1.blocks = cg.blocks
     ∧ (naive_transpose cg).1.indent = cg.indent
     ∧ (naive_transpose cg).1.errored = cg.errored
     ∧ (startsOf (naive_transpose cg).1.events).length = (startsOf cg.events).length + 3
     ∧ closeCount (naive_transpose cg).1.events = closeCount cg.events + 3)
    ∧ ((fast_transpose cg t).1.blocks = cg.blocks
     ∧ (fast_transpose cg t).1.indent = cg.indent
     ∧ (fast_transpose cg t).1.errored = cg.errored
     ∧ (startsOf (fast_transpose cg t).1.events).length = (startsOf cg.events).length + 7
     ∧ closeCount (fast_transpose cg t).1.events = closeCount cg.events + 7)
    ∧ ((block_copy cg).1.blocks = cg.blocks
     ∧ (block_copy cg).1.indent = cg.indent
     ∧ (block_copy cg).1.errored = cg.errored
     ∧ (startsOf (block_copy cg).1.events).length = (startsOf cg.events).length + 3
     ∧ closeCount (block_copy cg).1.events = closeCount cg.events + 3) := by
  refine ⟨⟨?_, ?_, ?_, ?_, ?_⟩, ⟨?_, ?_, ?_, ?_, ?_⟩, ⟨?_, ?_, ?_, ?_, ?_⟩,
    ⟨?_, ?_, ?_, ?_, ?_⟩, ⟨?_, ?_, ?_, ?_, ?_⟩⟩ <;>
    simp [pybind11_func_eq, pybind11_transpose_eq, naive_transpose_eq,
      fast_transpose_eq, block_copy_eq, pfChecksPre] <;>
    omega

/-- Claim C3: the wrapper emitted by `pybind11_func` computes the expected
output row count as `nsize = 2*L + 1` when spherical and
`((L + 2) * (L + 1)) / 2` otherwise (`nsize` is that computation's
semantics; in particular 5 and 6 for `L = 2`); the trace contains that
computation verbatim; it then emits exactly one row-count check against
`nsize` for the primary output buffer followed by exactly one per derivative
tag, contiguously and in provider order; and the per-tag messages are
buffer-specific: distinct uppercased tags give distinct messages, and none
collides with the primary buffer's message. -/
theorem claim_output_row_count (name cn : String) (dIdx : List String) (maxL : Nat) :
    (nsize 2 true = 5 ∧ nsize 2 false = 6)
    ∧ (∃ pre suf, (pybind11_func emptyCG name dIdx cn maxL).events =
        pre ++ [CEvent.write ("size_t nsize"),
          CEvent.start ("if (spherical)"),
          CEvent.write ("    nsize = 2 * L + 1"),
          CEvent.write ("\x7d else \x7b"),
          CEvent.write ("    nsize = ((L + 2) * (L + 1)) / 2"),
          CEvent.close] ++ suf)
    ∧ (∃ pre suf, (pybind11_func emptyCG name dIdx cn maxL).events =
        pre ++ ([CEvent.start ("if (out.shape(0) != nsize)"),
          CEvent.write ("    throw std::length_error(\"Size of the output array does not match the angular momentum.\\n\")"),
          CEvent.close]
         ++ dIdx.flatMap (fun c =>
            [CEvent.start ("if (out_" ++ c ++ ".shape(0) != nsize)"),
             CEvent.write ("    throw std::length_error(\"Size of the output " ++ c.toUpper
               ++ " array does not match the angular momentum.\\n\")"),
             CEvent.close])) ++ suf)
    ∧ (∀ c₁ c₂ : String,
        ("    throw std::length_error(\"Size of the output " ++ c₁.toUpper
          ++ " array does not match the angular momentum.\\n\")" : String) =
        "    throw std::length_error(\"Size of the output " ++ c₂.toUpper
          ++ " array does not match the angular momentum.\\n\")" →
        c₁.toUpper = c₂.toUpper)
    ∧ (∀ c : String,
        ("    throw std::length_error(\"Size of the output " ++ c.toUpper
          ++ " array does not match the angular momentum.\\n\")" : String) ≠
        "    throw std::length_error(\"Size of the output array does not match the angular momentum.\\n\")") := by
  refine ⟨⟨rfl, rfl⟩, ?_, ?_, rowMsg_inj, rowMsg_ne_primary⟩
  · refine ⟨[CEvent.start (pybindSig name dIdx), CEvent.blank,
      CEvent.write ("// Grab array pointers"),
      CEvent.write ("auto xyz = arr_xyz.unchecked<2>()"),
      CEvent.write ("auto coeffs = arr_coeffs.unchecked<1>()"),
      CEvent.write ("auto exponents = arr_exponents.unchecked<1>()"),
      CEvent.write ("auto center = arr_center.unchecked<1>()"),
      CEvent.write ("auto out = arr_out.mutable_unchecked<2>()")]
      ++ dIdx.map (fun c =>
          CEvent.write ("auto out_" ++ c ++ " = arr_" ++ c ++ "_out.mutable_unchecked<2>()"))
      ++ [CEvent.blank,
          CEvent.write ("// XYZ is of size 3"),
          CEvent.start ("if (L > " ++ toString maxL ++ ")"),
          CEvent.write ("    throw std::invalid_argument(\"Exceeded compiled angular momentum of "
            ++ toString maxL ++ ". Please recompile with a higher angular momentum.\\n\")"),
          CEvent.close,
          CEvent.write ("// XYZ is of size 3"),
          CEvent.start ("if (arr_xyz.shape(0) != 3)"),
          CEvent.write ("    throw std::length_error(\"Length of XYZ array must be (3, n).\\n\")"),
          CEvent.close, CEvent.blank,
          CEvent.write ("// Coeff matches exponent shape"),
          CEvent.start ("if (coeffs.shape(0) != exponents.shape(0))"),
          CEvent.write ("    throw std::length_error(\"Length of coefficients and exponents must match.\\n\")"),
          CEvent.close, CEvent.blank,
          CEvent.write ("// Center is of size 3"),
          CEvent.start ("if (center.shape(0) != 3)"),
          CEvent.write ("    throw std::length_error(\"Length of center vector must be 3 (X, Y, Z).\\n\")"),
          CEvent.close, CEvent.blank,
          CEvent.write ("// Make sure output length matches")], ?_, ?_⟩
    · exact [CEvent.blank,
        CEvent.start ("if (out.shape(0) != nsize)"),
        CEvent.write ("    throw std::length_error(\"Size of the output array does not match the angular momentum.\\n\")"),
        CEvent.close]
        ++ dIdx.flatMap (fun c =>
            [CEvent.start ("if (out_" ++ c ++ ".shape(0) != nsize)"),
             CEvent.write ("    throw std::length_error(\"Size of the output " ++ c.toUpper
               ++ " array does not match the angular momentum.\\n\")"),
             CEvent.close])
        ++ [CEvent.blank,
            CEvent.write ("// Ensure lengths match"),
            CEvent.start ("if (out.shape(1) != arr_xyz.shape(1))"),
            CEvent.write ("    throw std::length_error(\"Size of the output array and XYZ array must be the same.\\n\")"),
            CEvent.close]
        ++ dIdx.flatMap (fun c =>
            [CEvent.start ("if (out_" ++ c ++ ".shape(1) != arr_xyz.shape(1))"),
             CEvent.write ("    throw std::length_error(\"Size of the output " ++ c.toUpper
               ++ " array and XYZ array must be the same.\\n\")"),
             CEvent.close])
        ++ [CEvent.blank,
            CEvent.write ("// Call the GG helper function"),
            CEvent.write (ggCall cn dIdx), CEvent.close]
    · simp [pybind11_func_eq, pfChecksPre, emptyCG]
  · refine ⟨[CEvent.start (pybindSig name dIdx),
      CEvent.blank,
      CEvent.write ("// Grab array pointers"),
      CEvent.write ("auto xyz = arr_xyz.unchecked<2>()"),
      CEvent.write ("auto coeffs = arr_coeffs.unchecked<1>()"),
      CEvent.write ("auto exponents = arr_exponents.unchecked<1>()"),
      CEvent.write ("auto center = arr_center.unchecked<1>()"),
      CEvent.write ("auto out = arr_out.mutable_unchecked<2>()")]
      ++ dIdx.map (fun c =>
          CEvent.write ("auto out_" ++ c ++ " = arr_" ++ c ++ "_out.mutable_unchecked<2>()"))
      ++ [CEvent.blank,
          CEvent.write ("// XYZ is of size 3"),
          CEvent.start ("if (L > " ++ toString maxL ++ ")"),
          CEvent.write ("    throw std::invalid_argument(\"Exceeded compiled angular momentum of "
            ++ toString maxL ++ ". Please recompile with a higher angular momentum.\\n\")"),
          CEvent.close,
          CEvent.write ("// XYZ is of size 3"),
          CEvent.start ("if (arr_xyz.shape(0) != 3)"),
          CEvent.write ("    throw std::length_error(\"Length of XYZ array must be (3, n).\\n\")"),
          CEvent.close, CEvent.blank,
          CEvent.write ("// Coeff matches exponent shape"),
          CEvent.start ("if (coeffs.shape(0) != exponents.shape(0))"),
          CEvent.write ("    throw std::length_error(\"Length of coefficients and exponents must match.\\n\")"),
          CEvent.close, CEvent.blank,
          CEvent.write ("// Center is of size 3"),
          CEvent.start ("if (center.shape(0) != 3)"),
          CEvent.write ("    throw std::length_error(\"Length of center vector must be 3 (X, Y, Z).\\n\")"),
          CEvent.close, CEvent.blank,
          CEvent.write ("// Make sure output length matches"),
          CEvent.write ("size_t nsize"),
          CEvent.start ("if (spherical)"),
          CEvent.write ("    nsize = 2 * L + 1"),
          CEvent.write ("\x7d else \x7b"),
          CEvent.write ("    nsize = ((L + 2) * (L + 1)) / 2"),
          CEvent.close, CEvent.blank], ?_, ?_⟩
    · exact [CEvent.blank,
        CEvent.write ("// Ensure lengths match"),
        CEvent.start ("if (out.shape(1) != arr_xyz.shape(1))"),
        CEvent.write ("    throw std::length_error(\"Size of the output array and XYZ array must be the same.\\n\")"),
        CEvent.close]
        ++ dIdx.flatMap (fun c =>
            [CEvent.start ("if (out_" ++ c ++ ".shape(1) != arr_xyz.shape(1))"),
             CEvent.write ("    throw std::length_error(\"Size of the output " ++ c.toUpper
               ++ " array and XYZ array must be the same.\\n\")"),
             CEvent.close])
        ++ [CEvent.blank,
            CEvent.write ("// Call the GG helper function"),
            CEvent.write (ggCall cn dIdx), CEvent.close]
    · simp [pybind11_func_eq, pfChecksPre, emptyCG]

theorem claim_output_row_count_witness :
    nsize 2 true = 5 ∧ nsize 2 false = 6 ∧ ("x" : String).toUpper = ("x" : String).toUpper :=
  ⟨(claim_output_row_count "w" "f" [] 0).1.1,
   (claim_output_row_count "w" "f" [] 0).1.2,
   (claim_output_row_count "w" "f" [] 0).2.2.2.1 "x" "x" rfl⟩

/-- Claim C4: the kernel call emitted by `pybind11_func` passes its arguments
positionally in exactly the order: `L`, the point count `xyz.shape(1)`, the
three coordinate base pointers (rows 0, 1, 2 of the shared buffer), the
coefficient count, the coefficient, exponent and center base pointers, the
`spherical` flag, the primary output pointer, then one output pointer per
derivative tag in provider order; the same provider order governs the
wrapper's extra signature parameters and the per-derivative validation check
blocks (row-count checks, then point-count checks, each in tag order before
the call, which is the trace's second-to-last event). -/
theorem claim_kernel_call_argument_order (name cn : String) (dIdx : List String)
    (maxL : Nat) :
    ggCall cn dIdx = cn ++ "(" ++ commaSep
      (["L", "xyz.shape(1)", "xyz.data(0, 0)", "xyz.data(1, 0)", "xyz.data(2, 0)",
        "coeffs.shape(0)", "coeffs.data(0)", "exponents.data(0)", "center.data(0)",
        "spherical", "out.mutable_data(0, 0)"]
       ++ dIdx.map (fun c => "out_" ++ c ++ ".mutable_data(0, 0)")) ++ ")"
    ∧ pybindSig name dIdx =
      "void " ++ name ++ "(int L, py::array_t<double> arr_xyz, py::array_t<double> arr_coeffs,\npy::array_t<double> arr_exponents, py::array_t<double> arr_center, bool spherical,\npy::array_t<double> arr_out"
      ++ strConcat (dIdx.map (fun c => ", py::array_t<double> arr_" ++ c ++ "_out")) ++ ")"
    ∧ (∃ pre, (pybind11_func emptyCG name dIdx cn maxL).events =
        pre ++ [CEvent.write ("// Call the GG helper function"),
          CEvent.write (ggCall cn dIdx), CEvent.close])
    ∧ (∃ pre mid suf, (pybind11_func emptyCG name dIdx cn maxL).events =
        pre
        ++ dIdx.flatMap (fun c =>
            [CEvent.start ("if (out_" ++ c ++ ".shape(0) != nsize)"),
             CEvent.write ("    throw std::length_error(\"Size of the output " ++ c.toUpper
               ++ " array does not match the angular momentum.\\n\")"),
             CEvent.close])
        ++ mid
        ++ dIdx.flatMap (fun c =>
            [CEvent.start ("if (out_" ++ c ++ ".shape(1) != arr_xyz.shape(1))"),
             CEvent.write ("    throw std::length_error(\"Size of the output " ++ c.toUpper
               ++ " array and XYZ array must be the same.\\n\")"),
             CEvent.close])
        ++ suf
        ∧ suf = [CEvent.blank,
            CEvent.write ("// Call the GG helper function"),
            CEvent.write (ggCall cn dIdx), CEvent.close]) := by
  refine ⟨ggCall_args cn dIdx, pybindSig_params name dIdx,
    ⟨pfChecksPre name dIdx maxL, ?_⟩, ?_⟩
  · simp [pybind11_func_eq, emptyCG]
  · refine ⟨[CEvent.start (pybindSig name dIdx), CEvent.blank,
      CEvent.write ("// Grab array pointers"),
      CEvent.write ("auto xyz = arr_xyz.unchecked<2>()"),
      CEvent.write ("auto coeffs = arr_coeffs.unchecked<1>()"),
      CEvent.write ("auto exponents = arr_exponents.unchecked<1>()"),
      CEvent.write ("auto center = arr_center.unchecked<1>()"),
      CEvent.write ("auto out = arr_out.mutable_unchecked<2>()")]
      ++ dIdx.map (fun c =>
          CEvent.write ("auto out_" ++ c ++ " = arr_" ++ c ++ "_out.mutable_unchecked<2>()"))
      ++ [CEvent.blank,
          CEvent.write ("// XYZ is of size 3"),
          CEvent.start ("if (L > " ++ toString maxL ++ ")"),
          CEvent.write ("    throw std::invalid_argument(\"Exceeded compiled angular momentum of "
            ++ toString maxL ++ ". Please recompile with a higher angular momentum.\\n\")"),
          CEvent.close,
          CEvent.write ("// XYZ is of size 3"),
          CEvent.start ("if (arr_xyz.shape(0) != 3)"),
          CEvent.write ("    throw std::length_error(\"Length of XYZ array must be (3, n).\\n\")"),
          CEvent.close, CEvent.blank,
          CEvent.write ("// Coeff matches exponent shape"),
          CEvent.start ("if (coeffs.shape(0) != exponents.shape(0))"),
          CEvent.write ("    throw std::length_error(\"Length of coefficients and exponents must match.\\n\")"),
          CEvent.close, CEvent.blank,
          CEvent.write ("// Center is of size 3"),
          CEvent.start ("if (center.shape(0) != 3)"),
          CEvent.write ("    throw std::length_error(\"Length of center vector must be 3 (X, Y, Z).\\n\")"),
          CEvent.close, CEvent.blank,
          CEvent.write ("// Make sure output length matches"),
          CEvent.write ("size_t nsize"),
          CEvent.start ("if (spherical)"),
          CEvent.write ("    nsize = 2 * L + 1"),
          CEvent.write ("\x7d else \x7b"),
          CEvent.write ("    nsize = ((L + 2) * (L + 1)) / 2"),
          CEvent.close, CEvent.blank,
          CEvent.start ("if (out.shape(0) != nsize)"),
          CEvent.write ("    throw std::length_error(\"Size of the output array does not match the angular momentum.\\n\")"),
          CEvent.close],
      [CEvent.blank,
       CEvent.write ("// Ensure lengths match"),
       CEvent.start ("if (out.shape(1) != arr_xyz.shape(1))"),
       CEvent.write ("    throw std::length_error(\"Size of the output array and XYZ array must be the same.\\n\")"),
       CEvent.close],
      [CEvent.blank,
       CEvent.write ("// Call the GG helper function"),
       CEvent.write (ggCall cn dIdx), CEvent.close], ?_, rfl⟩
    simp [pybind11_func_eq, pfChecksPre, emptyCG]

end Gau2Grid
